import Mathlib

/-
Verification of the AIforBharat API-Gateway orchestrator layer
(src/api-gateway/orchestrator.py, main.py, routes.py) against its
natural-language specification.

The Python source is shallowly embedded: the circuit breaker's mutable
per-engine dictionaries become total functions from engine keys, wall-clock
time (`time.time()`) becomes an explicit rational-number parameter, the
downstream HTTP world is an explicit `NetOutcome` oracle, and the composite
pipelines become pure functions from per-step outcome oracles to a response
plus the list of downstream calls attempted.
-/

namespace AIforBharat

/-! ## Circuit breaker (class CircuitBreaker, orchestrator.py lines 45-106) -/

/-- Circuit state strings CLOSED / OPEN / HALF_OPEN of `CircuitBreaker`. -/
inductive CBState where
  | closed
  | opened
  | halfOpen
deriving DecidableEq, Repr

/-- State of one `CircuitBreaker` instance.  The Python dictionaries
`_states`, `_failure_counts`, `_last_failure_time` (read with defaults
CLOSED / 0 / 0 via `dict.get`) are embedded as total functions; `_threshold`
and `_recovery_timeout` are the constructor arguments. -/
structure Breaker where
  states : String → CBState
  failureCounts : String → Nat
  lastFailureTime : String → ℚ
  threshold : Nat
  recoveryTimeout : ℚ

/-- Fresh breaker, as built by `CircuitBreaker.__init__`: empty dictionaries,
so every key reads CLOSED with zero failures and last-failure time 0. -/
def initBreaker (failureThreshold : Nat) (recoveryTimeout : ℚ) : Breaker :=
  ⟨fun _ => CBState.closed, fun _ => 0, fun _ => 0, failureThreshold, recoveryTimeout⟩

/-- Method `_get_state` (lines 66-73): a side-effecting read that performs the
lazy OPEN → HALF_OPEN transition once `now - last_fail > recovery_timeout`. -/
def getState (b : Breaker) (engine : String) (now : ℚ) : CBState × Breaker :=
  match b.states engine with
  | CBState.opened =>
      if b.recoveryTimeout < now - b.lastFailureTime engine then
        (CBState.halfOpen,
         { b with states := Function.update b.states engine CBState.halfOpen })
      else
        (CBState.opened, b)
  | s => (s, b)

/-- Method `allow_request` (lines 75-81): CLOSED and HALF_OPEN allow,
OPEN rejects.  Returns the possibly-updated breaker alongside the verdict. -/
def allowRequest (b : Breaker) (engine : String) (now : ℚ) : Bool × Breaker :=
  match getState b engine now with
  | (CBState.closed, b') => (true, b')
  | (CBState.halfOpen, b') => (true, b')
  | (CBState.opened, b') => (false, b')

/-- Method `record_success` (lines 83-85): reset the counter, force CLOSED. -/
def recordSuccess (b : Breaker) (engine : String) : Breaker :=
  { b with
    failureCounts := Function.update b.failureCounts engine 0,
    states := Function.update b.states engine CBState.closed }

/-- Method `record_failure` (lines 87-93): increment the counter, refresh the
timestamp, and trip to OPEN once `count >= threshold`. -/
def recordFailure (b : Breaker) (engine : String) (now : ℚ) : Breaker :=
  let count := b.failureCounts engine + 1
  let b1 : Breaker :=
    { b with
      failureCounts := Function.update b.failureCounts engine count,
      lastFailureTime := Function.update b.lastFailureTime engine now }
  if b.threshold ≤ count then
    { b1 with states := Function.update b1.states engine CBState.opened }
  else
    b1

/-- A run of consecutive `record_failure` calls on one engine key at the
given sequence of timestamps. -/
def recordFailures (b : Breaker) (engine : String) (ts : List ℚ) : Breaker :=
  ts.foldl (fun acc t => recordFailure acc engine t) b

/-! ## JSON values and Python-dict helpers -/

/-- Parsed JSON value, as manipulated by the orchestrator's dict/list code. -/
inductive JVal where
  | null
  | bool (b : Bool)
  | num (q : ℚ)
  | str (s : String)
  | arr (xs : List JVal)
  | obj (fields : List (String × JVal))

/-- A JSON object body, i.e. a Python dict of parsed fields. -/
abbrev Obj := List (String × JVal)

/-- First-match lookup in a JSON object (Python `dict[...]` access). -/
def lookupField : Obj → String → Option JVal
  | [], _ => none
  | (k, v) :: rest, key => if k = key then some v else lookupField rest key

/-- Python `dict.get(key, default)` on a JSON object. -/
def getD (fields : Obj) (key : String) (dflt : JVal) : JVal :=
  (lookupField fields key).getD dflt

/-- Python truthiness of a JSON value (`if body:` style tests). -/
def JVal.truthy : JVal → Bool
  | JVal.null => false
  | JVal.bool b => b
  | JVal.num q => decide (q ≠ 0)
  | JVal.str s => decide (s ≠ "")
  | JVal.arr xs => !xs.isEmpty
  | JVal.obj fs => !fs.isEmpty

/-- Python `str()` of a parsed JSON value (used for the detail text of
application-level errors; numeric formatting is approximated, which no
theorem below depends on). -/
def pyStr : JVal → String
  | JVal.null => "None"
  | JVal.bool true => "True"
  | JVal.bool false => "False"
  | JVal.num q => toString q
  | JVal.str s => "\x27" ++ s ++ "\x27"
  | JVal.arr xs => "[" ++ String.intercalate ", " (xs.attach.map fun x => pyStr x.1) ++ "]"
  | JVal.obj fs =>
      "\x7b" ++
      String.intercalate ", "
        (fs.attach.map fun kv => "\x27" ++ kv.1.1 ++ "\x27: " ++ pyStr kv.1.2) ++
      "\x7d"
decreasing_by
  · simp_wf
    have h := List.sizeOf_lt_of_mem x.2
    omega
  · simp_wf
    have h := List.sizeOf_lt_of_mem kv.2
    have h2 : sizeOf kv.1.2 < sizeOf kv.1 := by
      obtain ⟨a, c⟩ := kv.1; simp
    omega

/-- Envelope unwrapping at the end of `call_engine` (lines 172-175): if the
body is a dict containing a `"data"` key, return that key's value. -/
def unwrapData (body : JVal) : JVal :=
  match body with
  | JVal.obj fields =>
      match lookupField fields "data" with
      | some v => v
      | none => JVal.obj fields
  | v => v

/-! ## call_engine (orchestrator.py lines 113-187) -/

/-- Exception class `EngineCallError` (lines 190-197). -/
structure EngineCallError where
  engine : String
  status : Nat
  detail : String
deriving DecidableEq, Repr

/-- Body of a received HTTP response, as seen by `response.content` /
`response.json()`. -/
inductive RespBody where
  | empty
  | json (v : JVal)
  | invalidJson

/-- What the network does for one attempted HTTP request: the transport
failures distinguished by `call_engine`'s handlers, any other exception
raised while issuing the request, or a response with a status code and a
body that is empty, valid JSON, or undecodable. -/
inductive NetOutcome where
  | connectError
  | timeoutError
  | otherError (msg : String)
  | response (status : Nat) (body : RespBody)

/-- Result of one `call_engine` invocation: the returned JSON (or the raised
`EngineCallError`), the breaker afterwards, and whether any network I/O was
attempted. -/
structure CallResult where
  result : Except EngineCallError JVal
  breaker : Breaker
  networkAttempted : Bool

/-- Function `call_engine` (lines 113-187), with `ENGINE_URLS` passed in as
`urls`, the current wall-clock time as `now`, and the network's behaviour as
`net`.  The float seconds in the timeout message are elided from the detail
string.  Note the order of breaker updates: `record_success` runs as soon as
the HTTP response arrives (line 164), before the status check; a body that
fails to decode then hits the generic handler, which records a failure. -/
def callEngine (urls : String → Option String) (b : Breaker) (engineKey : String)
    (now : ℚ) (net : NetOutcome) : CallResult :=
  match urls engineKey with
  | none =>
      ⟨Except.error ⟨engineKey, 0, "Unknown engine key: " ++ engineKey⟩, b, false⟩
  | some _ =>
      let ab := allowRequest b engineKey now
      if ab.1 then
        match net with
        | NetOutcome.connectError =>
            ⟨Except.error ⟨engineKey, 503, "Engine " ++ engineKey ++ " is not responding"⟩,
             recordFailure ab.2 engineKey now, true⟩
        | NetOutcome.timeoutError =>
            ⟨Except.error ⟨engineKey, 504, "Engine " ++ engineKey ++ " timed out"⟩,
             recordFailure ab.2 engineKey now, true⟩
        | NetOutcome.otherError msg =>
            ⟨Except.error ⟨engineKey, 502, msg⟩,
             recordFailure ab.2 engineKey now, true⟩
        | NetOutcome.response status body =>
            let b2 := recordSuccess ab.2 engineKey
            match body with
            | RespBody.invalidJson =>
                ⟨Except.error ⟨engineKey, 502, "response body is not valid JSON"⟩,
                 recordFailure b2 engineKey now, true⟩
            | RespBody.empty =>
                if 400 ≤ status then
                  ⟨Except.error ⟨engineKey, status, pyStr (JVal.obj [])⟩, b2, true⟩
                else
                  ⟨Except.ok (unwrapData (JVal.obj [])), b2, true⟩
            | RespBody.json v =>
                if 400 ≤ status then
                  ⟨Except.error ⟨engineKey, status, pyStr v⟩, b2, true⟩
                else
                  ⟨Except.ok (unwrapData v), b2, true⟩
      else
        ⟨Except.error ⟨engineKey, 503,
            "Circuit breaker OPEN for " ++ engineKey ++ ". Engine is temporarily unavailable."⟩,
         ab.2, false⟩

/-- Headers attached by `call_engine` to every downstream request
(lines 149-152): exactly Content-Type and the X-Request-ID correlation id. -/
def callEngineHeaders (requestId : String) : List (String × String) :=
  [("Content-Type", "application/json"), ("X-Request-ID", requestId)]

/-- Headers attached by `proxy_request` in routes.py (lines 70-75), which
does forward the inbound Authorization header when present. -/
def proxyRequestHeaders (contentType requestId : String) (auth : Option String) :
    List (String × String) :=
  match auth with
  | some a =>
      [("Content-Type", contentType), ("X-Request-ID", requestId), ("Authorization", a)]
  | none =>
      [("Content-Type", contentType), ("X-Request-ID", requestId)]

/-! ## Trace-id middleware (main.py lines 83-100) -/

/-- Python `a or b` for an optional header value (absent or empty is falsy). -/
def strOr (a : Option String) (b : String) : String :=
  match a with
  | some s => if s = "" then b else s
  | none => b

/-- Middleware `add_trace_id`: the trace id is the inbound `X-Trace-ID`
header, else the legacy `X-Request-ID` header, else a fresh UUID; it is
stored on the request state and set verbatim on the response's `X-Trace-ID`
(and `X-Request-ID`) headers. -/
def resolveTraceId (xTraceId xRequestId : Option String) (fresh : String) : String :=
  strOr xTraceId (strOr xRequestId fresh)

/-! ## Basic lemmas about the circuit breaker operations -/

theorem recordFailure_counts (b : Breaker) (e : String) (t : ℚ) :
    (recordFailure b e t).failureCounts e = b.failureCounts e + 1 := by
  by_cases h : b.threshold ≤ b.failureCounts e + 1 <;> simp [recordFailure, h]

theorem recordFailure_counts_other (b : Breaker) (e e' : String) (t : ℚ) (h : e' ≠ e) :
    (recordFailure b e t).failureCounts e' = b.failureCounts e' := by
  by_cases hc : b.threshold ≤ b.failureCounts e + 1 <;>
    simp [recordFailure, hc, Function.update_noteq h]

theorem recordFailure_last (b : Breaker) (e : String) (t : ℚ) :
    (recordFailure b e t).lastFailureTime e = t := by
  by_cases h : b.threshold ≤ b.failureCounts e + 1 <;> simp [recordFailure, h]

theorem recordFailure_config (b : Breaker) (e : String) (t : ℚ) :
    (recordFailure b e t).threshold = b.threshold ∧
    (recordFailure b e t).recoveryTimeout = b.recoveryTimeout := by
  by_cases h : b.threshold ≤ b.failureCounts e + 1 <;> simp [recordFailure, h]

theorem recordFailure_opened (b : Breaker) (e : String) (t : ℚ)
    (h : b.threshold ≤ b.failureCounts e + 1) :
    (recordFailure b e t).states e = CBState.opened := by
  simp [recordFailure, h]

theorem recordSuccess_fields (b : Breaker) (e : String) :
    (recordSuccess b e).states e = CBState.closed ∧
    (recordSuccess b e).failureCounts e = 0 ∧
    (recordSuccess b e).lastFailureTime = b.lastFailureTime ∧
    (recordSuccess b e).threshold = b.threshold ∧
    (recordSuccess b e).recoveryTimeout = b.recoveryTimeout := by
  simp [recordSuccess]

theorem allowRequest_closed (b : Breaker) (e : String) (now : ℚ)
    (h : b.states e = CBState.closed) :
    allowRequest b e now = (true, b) := by
  simp [allowRequest, getState, h]

theorem allowRequest_halfOpen (b : Breaker) (e : String) (now : ℚ)
    (h : b.states e = CBState.halfOpen) :
    allowRequest b e now = (true, b) := by
  simp [allowRequest, getState, h]

theorem allowRequest_opened_within (b : Breaker) (e : String) (now : ℚ)
    (h : b.states e = CBState.opened)
    (hw : now - b.lastFailureTime e ≤ b.recoveryTimeout) :
    allowRequest b e now = (false, b) := by
  simp [allowRequest, getState, h, not_lt.mpr hw]

theorem allowRequest_opened_after (b : Breaker) (e : String) (now : ℚ)
    (h : b.states e = CBState.opened)
    (hw : b.recoveryTimeout < now - b.lastFailureTime e) :
    allowRequest b e now =
      (true, { b with states := Function.update b.states e CBState.halfOpen }) := by
  simp [allowRequest, getState, h, hw]

theorem allowRequest_false_eq (b : Breaker) (e : String) (now : ℚ)
    (h : (allowRequest b e now).1 = false) :
    (allowRequest b e now).2 = b := by
  rcases hs : b.states e with _ | _ | _
  · rw [allowRequest_closed b e now hs] at h; exact absurd h (by simp)
  · by_cases hw : b.recoveryTimeout < now - b.lastFailureTime e
    · rw [allowRequest_opened_after b e now hs hw] at h; exact absurd h (by simp)
    · rw [allowRequest_opened_within b e now hs (not_lt.mp hw)]
  · rw [allowRequest_halfOpen b e now hs] at h; exact absurd h (by simp)

theorem allowRequest_snd_fields (b : Breaker) (e : String) (now : ℚ) :
    ((allowRequest b e now).2).failureCounts = b.failureCounts ∧
    ((allowRequest b e now).2).lastFailureTime = b.lastFailureTime ∧
    ((allowRequest b e now).2).threshold = b.threshold ∧
    ((allowRequest b e now).2).recoveryTimeout = b.recoveryTimeout := by
  rcases hs : b.states e with _ | _ | _
  · rw [allowRequest_closed b e now hs]; exact ⟨rfl, rfl, rfl, rfl⟩
  · by_cases hw : b.recoveryTimeout < now - b.lastFailureTime e
    · rw [allowRequest_opened_after b e now hs hw]; exact ⟨rfl, rfl, rfl, rfl⟩
    · rw [allowRequest_opened_within b e now hs (not_lt.mp hw)]; exact ⟨rfl, rfl, rfl, rfl⟩
  · rw [allowRequest_halfOpen b e now hs]; exact ⟨rfl, rfl, rfl, rfl⟩

theorem recordFailures_cons (b : Breaker) (e : String) (t : ℚ) (ts : List ℚ) :
    recordFailures b e (t :: ts) = recordFailures (recordFailure b e t) e ts := rfl

theorem recordFailures_append_one (b : Breaker) (e : String) (ts : List ℚ) (t : ℚ) :
    recordFailures b e (ts ++ [t]) = recordFailure (recordFailures b e ts) e t := by
  simp [recordFailures, List.foldl_append]

theorem recordFailures_counts (b : Breaker) (e : String) (ts : List ℚ) :
    (recordFailures b e ts).failureCounts e = b.failureCounts e + ts.length := by
  induction ts generalizing b with
  | nil => simp [recordFailures]
  | cons t ts ih =>
      rw [recordFailures_cons, ih, recordFailure_counts]
      simp
      omega

theorem recordFailures_config (b : Breaker) (e : String) (ts : List ℚ) :
    (recordFailures b e ts).threshold = b.threshold ∧
    (recordFailures b e ts).recoveryTimeout = b.recoveryTimeout := by
  induction ts generalizing b with
  | nil => simp [recordFailures]
  | cons t ts ih =>
      rw [recordFailures_cons]
      rcases ih (recordFailure b e t) with ⟨h1, h2⟩
      rcases recordFailure_config b e t with ⟨h3, h4⟩
      exact ⟨h1.trans h3, h2.trans h4⟩

/-- C1: for every service key, after `failure_threshold` consecutive
`record_failure` calls (the last at time `tn`) starting from a zero failure
count, `allow_request` returns `false` (leaving the breaker unchanged) as
long as `now - tn ≤ recovery_timeout`; once `recovery_timeout` has elapsed
it returns `true` as a HALF_OPEN probe; if the probe's result is then
recorded as success the state reverts to CLOSED with the counter reset and
requests are allowed again, and if it is recorded as failure the state
reverts to OPEN with the failure timestamp refreshed to the new failure
time, rejecting requests for a further `recovery_timeout` window. -/
theorem C1_breaker_trip_and_probe
    (b : Breaker) (e : String) (ts : List ℚ) (tn : ℚ)
    (hc : b.failureCounts e = 0)
    (hlen : ts.length + 1 = b.threshold)
    (b1 : Breaker) (hb1 : b1 = recordFailures b e (ts ++ [tn])) :
    (∀ now, now - tn ≤ b.recoveryTimeout → allowRequest b1 e now = (false, b1)) ∧
    (∀ now, b.recoveryTimeout < now - tn →
      (allowRequest b1 e now).1 = true ∧
      ((allowRequest b1 e now).2).states e = CBState.halfOpen ∧
      (recordSuccess ((allowRequest b1 e now).2) e).states e = CBState.closed ∧
      (recordSuccess ((allowRequest b1 e now).2) e).failureCounts e = 0 ∧
      (∀ t, (allowRequest (recordSuccess ((allowRequest b1 e now).2) e) e t).1 = true) ∧
      (∀ tf, (recordFailure ((allowRequest b1 e now).2) e tf).states e = CBState.opened ∧
             (recordFailure ((allowRequest b1 e now).2) e tf).lastFailureTime e = tf ∧
             (∀ t2, t2 - tf ≤ b.recoveryTimeout →
               (allowRequest (recordFailure ((allowRequest b1 e now).2) e tf) e t2).1 =
                 false))) := by
  have hmidcfg := recordFailures_config b e ts
  have hmidcount : (recordFailures b e ts).failureCounts e = ts.length := by
    rw [recordFailures_counts, hc]; omega
  have hsplit : b1 = recordFailure (recordFailures b e ts) e tn := by
    rw [hb1, recordFailures_append_one]
  have hb1count : b1.failureCounts e = b.threshold := by
    rw [hsplit, recordFailure_counts, hmidcount]; omega
  have hb1cfg : b1.threshold = b.threshold ∧ b1.recoveryTimeout = b.recoveryTimeout := by
    rw [hsplit]
    rcases recordFailure_config (recordFailures b e ts) e tn with ⟨h1, h2⟩
    exact ⟨h1.trans hmidcfg.1, h2.trans hmidcfg.2⟩
  have hb1open : b1.states e = CBState.opened := by
    rw [hsplit]
    exact recordFailure_opened _ e tn (by rw [hmidcfg.1, hmidcount]; omega)
  have hb1last : b1.lastFailureTime e = tn := by
    rw [hsplit, recordFailure_last]
  constructor
  · intro now hnow
    exact allowRequest_opened_within b1 e now hb1open
      (by rw [hb1last, hb1cfg.2]; exact hnow)
  · intro now hnow
    have haft := allowRequest_opened_after b1 e now hb1open
      (by rw [hb1last, hb1cfg.2]; exact hnow)
    rw [haft]
    refine ⟨rfl, by simp, ?_, ?_, ?_, ?_⟩
    · exact (recordSuccess_fields _ e).1
    · exact (recordSuccess_fields _ e).2.1
    · intro t
      rw [allowRequest_closed _ e t (recordSuccess_fields _ e).1]
    · intro tf
      have hcnt :
          ({ b1 with states := Function.update b1.states e CBState.halfOpen} :
            Breaker).failureCounts e = b.threshold := hb1count
      have hthr :
          ({ b1 with states := Function.update b1.states e CBState.halfOpen} :
            Breaker).threshold = b.threshold := hb1cfg.1
      have hopen := recordFailure_opened
        ({ b1 with states := Function.update b1.states e CBState.halfOpen}) e tf
        (by rw [hcnt, hthr]; omega)
      refine ⟨hopen, recordFailure_last _ e tf, ?_⟩
      intro t2 ht2
      have hrt :
          (recordFailure
            ({ b1 with states := Function.update b1.states e CBState.halfOpen}) e
            tf).recoveryTimeout = b.recoveryTimeout := by
        rw [(recordFailure_config _ e tf).2]
        exact hb1cfg.2
      rw [allowRequest_opened_within _ e t2 hopen
        (by rw [recordFailure_last _ e tf, hrt]; exact ht2)]

/-- Witness for C1 at the defaults `failure_threshold = 5`,
`recovery_timeout = 30`: five consecutive failures on key `"svc"` at times
1..5; at time 20 the request is rejected, at time 36 the probe is allowed. -/
theorem C1_breaker_trip_and_probe_witness :
    (allowRequest (recordFailures (initBreaker 5 30) "svc" ([1, 2, 3, 4] ++ [5]))
      "svc" 20).1 = false ∧
    (allowRequest (recordFailures (initBreaker 5 30) "svc" ([1, 2, 3, 4] ++ [5]))
      "svc" 36).1 = true := by
  have h := C1_breaker_trip_and_probe (initBreaker 5 30) "svc" [1, 2, 3, 4] 5
    rfl rfl (recordFailures (initBreaker 5 30) "svc" ([1, 2, 3, 4] ++ [5])) rfl
  constructor
  · have h20 := h.1 20 (by norm_num [initBreaker])
    rw [h20]
  · exact (h.2 36 (by norm_num [initBreaker])).1

/-! ## Unfolding lemmas for callEngine -/

theorem callEngine_unknown (urls : String → Option String) (b : Breaker)
    (key : String) (now : ℚ) (net : NetOutcome) (h : urls key = none) :
    callEngine urls b key now net =
      ⟨Except.error ⟨key, 0, "Unknown engine key: " ++ key⟩, b, false⟩ := by
  simp [callEngine, h]

theorem callEngine_rejected (urls : String → Option String) (u : String) (b : Breaker)
    (key : String) (now : ℚ) (net : NetOutcome) (h : urls key = some u)
    (ha : (allowRequest b key now).1 = false) :
    callEngine urls b key now net =
      ⟨Except.error ⟨key, 503,
          "Circuit breaker OPEN for " ++ key ++ ". Engine is temporarily unavailable."⟩,
       b, false⟩ := by
  simp [callEngine, h, ha, allowRequest_false_eq b key now ha]

theorem callEngine_connectError (urls : String → Option String) (u : String)
    (b : Breaker) (key : String) (now : ℚ) (h : urls key = some u)
    (ha : (allowRequest b key now).1 = true) :
    callEngine urls b key now NetOutcome.connectError =
      ⟨Except.error ⟨key, 503, "Engine " ++ key ++ " is not responding"⟩,
       recordFailure ((allowRequest b key now).2) key now, true⟩ := by
  simp [callEngine, h, ha]

theorem callEngine_timeout (urls : String → Option String) (u : String)
    (b : Breaker) (key : String) (now : ℚ) (h : urls key = some u)
    (ha : (allowRequest b key now).1 = true) :
    callEngine urls b key now NetOutcome.timeoutError =
      ⟨Except.error ⟨key, 504, "Engine " ++ key ++ " timed out"⟩,
       recordFailure ((allowRequest b key now).2) key now, true⟩ := by
  simp [callEngine, h, ha]

theorem callEngine_otherError (urls : String → Option String) (u : String)
    (b : Breaker) (key : String) (now : ℚ) (msg : String) (h : urls key = some u)
    (ha : (allowRequest b key now).1 = true) :
    callEngine urls b key now (NetOutcome.otherError msg) =
      ⟨Except.error ⟨key, 502, msg⟩,
       recordFailure ((allowRequest b key now).2) key now, true⟩ := by
  simp [callEngine, h, ha]

theorem callEngine_invalidJson (urls : String → Option String) (u : String)
    (b : Breaker) (key : String) (now : ℚ) (status : Nat) (h : urls key = some u)
    (ha : (allowRequest b key now).1 = true) :
    callEngine urls b key now (NetOutcome.response status RespBody.invalidJson) =
      ⟨Except.error ⟨key, 502, "response body is not valid JSON"⟩,
       recordFailure (recordSuccess ((allowRequest b key now).2) key) key now, true⟩ := by
  simp [callEngine, h, ha]

theorem callEngine_httpError_empty (urls : String → Option String) (u : String)
    (b : Breaker) (key : String) (now : ℚ) (status : Nat) (h : urls key = some u)
    (ha : (allowRequest b key now).1 = true) (hs : 400 ≤ status) :
    callEngine urls b key now (NetOutcome.response status RespBody.empty) =
      ⟨Except.error ⟨key, status, pyStr (JVal.obj [])⟩,
       recordSuccess ((allowRequest b key now).2) key, true⟩ := by
  simp [callEngine, h, ha, hs]

theorem callEngine_httpError_json (urls : String → Option String) (u : String)
    (b : Breaker) (key : String) (now : ℚ) (status : Nat) (v : JVal)
    (h : urls key = some u) (ha : (allowRequest b key now).1 = true)
    (hs : 400 ≤ status) :
    callEngine urls b key now (NetOutcome.response status (RespBody.json v)) =
      ⟨Except.error ⟨key, status, pyStr v⟩,
       recordSuccess ((allowRequest b key now).2) key, true⟩ := by
  simp [callEngine, h, ha, hs]

/-- A concrete one-entry engine-URL table used by witnesses. -/
def demoUrls : String → Option String :=
  fun k => if k = "svc" then some "http://localhost:8099" else none

/-- A concrete breaker for key `"svc"` that is OPEN inside its recovery
window at time 10: five consecutive failures at times 1..5. -/
def openBreaker : Breaker :=
  recordFailures (initBreaker 5 30) "svc" [1, 2, 3, 4, 5]

/-! ## Claim C3 -/

/-- C3: `call_engine` (i) fails with `EngineCallError(status=0)` on an
unconfigured service key, leaving the breaker untouched and attempting no
network I/O regardless of what the network would do; (ii) fails with
status 503 and no network I/O when `allow_request` returns false, again
leaving the breaker unchanged; (iii) on a connection error records a
breaker failure and fails with status 503; (iv) on a timeout records a
breaker failure and fails with status 504. -/
theorem C3_callEngine_error_taxonomy
    (urls : String → Option String) (b : Breaker) (key : String) (now : ℚ) :
    (urls key = none → ∀ net, callEngine urls b key now net =
      ⟨Except.error ⟨key, 0, "Unknown engine key: " ++ key⟩, b, false⟩) ∧
    (∀ u, urls key = some u → (allowRequest b key now).1 = false →
      ∀ net, callEngine urls b key now net =
        ⟨Except.error ⟨key, 503,
            "Circuit breaker OPEN for " ++ key ++ ". Engine is temporarily unavailable."⟩,
         b, false⟩) ∧
    (∀ u, urls key = some u → (allowRequest b key now).1 = true →
      callEngine urls b key now NetOutcome.connectError =
        ⟨Except.error ⟨key, 503, "Engine " ++ key ++ " is not responding"⟩,
         recordFailure ((allowRequest b key now).2) key now, true⟩) ∧
    (∀ u, urls key = some u → (allowRequest b key now).1 = true →
      callEngine urls b key now NetOutcome.timeoutError =
        ⟨Except.error ⟨key, 504, "Engine " ++ key ++ " timed out"⟩,
         recordFailure ((allowRequest b key now).2) key now, true⟩) := by
  refine ⟨?_, ?_, ?_, ?_⟩
  · intro h net; exact callEngine_unknown urls b key now net h
  · intro u h ha net; exact callEngine_rejected urls u b key now net h ha
  · intro u h ha; exact callEngine_connectError urls u b key now h ha
  · intro u h ha; exact callEngine_timeout urls u b key now h ha

/-- Witness for C3: all four branches exercised on concrete inputs — an
unknown key, an OPEN breaker inside its window, a connection error and a
timeout against a fresh breaker. -/
theorem C3_callEngine_error_taxonomy_witness :
    (callEngine demoUrls (initBreaker 5 30) "nokey" 0 NetOutcome.connectError =
      ⟨Except.error ⟨"nokey", 0, "Unknown engine key: " ++ "nokey"⟩,
       initBreaker 5 30, false⟩) ∧
    (callEngine demoUrls openBreaker "svc" 10 NetOutcome.timeoutError =
      ⟨Except.error ⟨"svc", 503,
          "Circuit breaker OPEN for " ++ "svc" ++ ". Engine is temporarily unavailable."⟩,
       openBreaker, false⟩) ∧
    (callEngine demoUrls (initBreaker 5 30) "svc" 0 NetOutcome.connectError =
      ⟨Except.error ⟨"svc", 503, "Engine " ++ "svc" ++ " is not responding"⟩,
       recordFailure ((allowRequest (initBreaker 5 30) "svc" 0).2) "svc" 0, true⟩) ∧
    (callEngine demoUrls (initBreaker 5 30) "svc" 0 NetOutcome.timeoutError =
      ⟨Except.error ⟨"svc", 504, "Engine " ++ "svc" ++ " timed out"⟩,
       recordFailure ((allowRequest (initBreaker 5 30) "svc" 0).2) "svc" 0, true⟩) := by
  refine ⟨?_, ?_, ?_, ?_⟩
  · exact (C3_callEngine_error_taxonomy demoUrls (initBreaker 5 30) "nokey" 0).1
      (by decide) NetOutcome.connectError
  · exact (C3_callEngine_error_taxonomy demoUrls openBreaker "svc" 10).2.1
      "http://localhost:8099" (by decide)
      (by norm_num [openBreaker, recordFailures, List.foldl, recordFailure, initBreaker,
        allowRequest, getState, Function.update]) NetOutcome.timeoutError
  · exact (C3_callEngine_error_taxonomy demoUrls (initBreaker 5 30) "svc" 0).2.2.1
      "http://localhost:8099" (by decide) (by decide)
  · exact (C3_callEngine_error_taxonomy demoUrls (initBreaker 5 30) "svc" 0).2.2.2
      "http://localhost:8099" (by decide) (by decide)

/-! ## Claim C2 -/

/-- C2 counterexample: the claim says a 4xx response leaves the breaker's
failure counter unchanged, but `call_engine` calls `record_success` as soon
as the connection succeeds.  Concretely: a breaker with one recorded failure
on `"svc"` (counter 1) receives a 404 response; afterwards the counter is 0,
not 1. -/
theorem C2_counterexample :
    (recordFailure (initBreaker 5 30) "svc" 0).failureCounts "svc" = 1 ∧
    (callEngine demoUrls (recordFailure (initBreaker 5 30) "svc" 0) "svc" 10
        (NetOutcome.response 404 RespBody.empty)).breaker.failureCounts "svc" = 0 := by
  constructor
  · norm_num [recordFailure, initBreaker, Function.update]
  · norm_num [callEngine, demoUrls, recordFailure, recordSuccess, initBreaker,
      allowRequest, getState, Function.update]

/-- C2 (amended): a downstream HTTP response with status ≥ 400 after a
successful connection never records a breaker *failure*: it records a
*success*, so the failure counter for that key is reset to 0, the state is
forced CLOSED, and the last-failure timestamp is left unchanged; the call
then fails with `EngineCallError` carrying that status.  (Only connection
errors, timeouts and other exceptions during the HTTP phase record
failures.) -/
theorem C2_amended_http_error_records_success
    (urls : String → Option String) (u : String) (b : Breaker) (key : String)
    (now : ℚ) (status : Nat) (body : RespBody)
    (hu : urls key = some u) (ha : (allowRequest b key now).1 = true)
    (hs : 400 ≤ status) (hb : body ≠ RespBody.invalidJson) :
    (∃ d, (callEngine urls b key now (NetOutcome.response status body)).result =
        Except.error ⟨key, status, d⟩) ∧
    (callEngine urls b key now (NetOutcome.response status body)).breaker =
      recordSuccess ((allowRequest b key now).2) key ∧
    (callEngine urls b key now (NetOutcome.response status body)).breaker.failureCounts
        key = 0 ∧
    (callEngine urls b key now (NetOutcome.response status body)).breaker.states key =
      CBState.closed ∧
    (callEngine urls b key now (NetOutcome.response status body)).breaker.lastFailureTime
        key = b.lastFailureTime key := by
  have hfields := recordSuccess_fields ((allowRequest b key now).2) key
  have hsnd := allowRequest_snd_fields b key now
  rcases body with _ | v | _
  · rw [callEngine_httpError_empty urls u b key now status hu ha hs]
    exact ⟨⟨pyStr (JVal.obj []), rfl⟩, rfl, hfields.2.1, hfields.1,
      by rw [hfields.2.2.1, hsnd.2.1]⟩
  · rw [callEngine_httpError_json urls u b key now status v hu ha hs]
    exact ⟨⟨pyStr v, rfl⟩, rfl, hfields.2.1, hfields.1,
      by rw [hfields.2.2.1, hsnd.2.1]⟩
  · exact absurd rfl hb

/-- Witness for C2 (amended): a 404 with empty body against a breaker that
had one failure recorded for `"svc"`: counter after is 0, state CLOSED,
last-failure timestamp still the one of the old failure (time 0). -/
theorem C2_amended_witness :
    (callEngine demoUrls (recordFailure (initBreaker 5 30) "svc" 0) "svc" 10
        (NetOutcome.response 404 RespBody.empty)).breaker.failureCounts "svc" = 0 ∧
    (callEngine demoUrls (recordFailure (initBreaker 5 30) "svc" 0) "svc" 10
        (NetOutcome.response 404 RespBody.empty)).breaker.states "svc" =
      CBState.closed ∧
    (callEngine demoUrls (recordFailure (initBreaker 5 30) "svc" 0) "svc" 10
        (NetOutcome.response 404 RespBody.empty)).breaker.lastFailureTime "svc" =
      (recordFailure (initBreaker 5 30) "svc" 0).lastFailureTime "svc" := by
  have h := C2_amended_http_error_records_success demoUrls "http://localhost:8099"
    (recordFailure (initBreaker 5 30) "svc" 0) "svc" 10 404 RespBody.empty
    (by decide)
    (by norm_num [recordFailure, initBreaker, allowRequest, getState, Function.update])
    (by norm_num) (by simp)
  exact ⟨h.2.2.1, h.2.2.2.1, h.2.2.2.2⟩

/-! ## Claim C10 -/

/-- C10: an exception during the HTTP phase of `call_engine` other than a
connection error, a timeout or an `EngineCallError` records a breaker
failure for the key and raises `EngineCallError` with status 502.  This
covers (i) any other exception while issuing the request, and (ii) a
response whose body is not valid JSON — in the latter case `record_success`
has already run, so the counter ends at exactly 1; in both cases the
last-failure timestamp is refreshed to `now`. -/
theorem C10_other_exceptions_trip_breaker
    (urls : String → Option String) (u : String) (b : Breaker) (key : String)
    (now : ℚ) (hu : urls key = some u) (ha : (allowRequest b key now).1 = true) :
    (∀ msg, callEngine urls b key now (NetOutcome.otherError msg) =
      ⟨Except.error ⟨key, 502, msg⟩,
       recordFailure ((allowRequest b key now).2) key now, true⟩) ∧
    (∀ msg,
      (callEngine urls b key now (NetOutcome.otherError msg)).breaker.failureCounts key =
        b.failureCounts key + 1 ∧
      (callEngine urls b key now (NetOutcome.otherError msg)).breaker.lastFailureTime key =
        now) ∧
    (∀ status, callEngine urls b key now (NetOutcome.response status RespBody.invalidJson) =
      ⟨Except.error ⟨key, 502, "response body is not valid JSON"⟩,
       recordFailure (recordSuccess ((allowRequest b key now).2) key) key now, true⟩) ∧
    (∀ status,
      (callEngine urls b key now
          (NetOutcome.response status RespBody.invalidJson)).breaker.failureCounts key =
        1 ∧
      (callEngine urls b key now
          (NetOutcome.response status RespBody.invalidJson)).breaker.lastFailureTime key =
        now) := by
  have hsnd := allowRequest_snd_fields b key now
  refine ⟨?_, ?_, ?_, ?_⟩
  · intro msg; exact callEngine_otherError urls u b key now msg hu ha
  · intro msg
    rw [callEngine_otherError urls u b key now msg hu ha]
    refine ⟨?_, recordFailure_last _ key now⟩
    rw [recordFailure_counts, hsnd.1]
  · intro status; exact callEngine_invalidJson urls u b key now status hu ha
  · intro status
    rw [callEngine_invalidJson urls u b key now status hu ha]
    refine ⟨?_, recordFailure_last _ key now⟩
    rw [recordFailure_counts,
      (recordSuccess_fields ((allowRequest b key now).2) key).2.1]

/-- Witness for C10: a generic exception and an invalid-JSON 200 response on
a fresh breaker at time 7 both end with status-502 errors, the counter at 1
and the last-failure timestamp at 7. -/
theorem C10_other_exceptions_trip_breaker_witness :
    ((callEngine demoUrls (initBreaker 5 30) "svc" 7
        (NetOutcome.otherError "boom")).breaker.failureCounts "svc" = 0 + 1 ∧
      (callEngine demoUrls (initBreaker 5 30) "svc" 7
        (NetOutcome.otherError "boom")).breaker.lastFailureTime "svc" = 7) ∧
    ((callEngine demoUrls (initBreaker 5 30) "svc" 7
        (NetOutcome.response 200 RespBody.invalidJson)).breaker.failureCounts "svc" = 1 ∧
      (callEngine demoUrls (initBreaker 5 30) "svc" 7
        (NetOutcome.response 200 RespBody.invalidJson)).breaker.lastFailureTime "svc" = 7) := by
  have h := C10_other_exceptions_trip_breaker demoUrls "http://localhost:8099"
    (initBreaker 5 30) "svc" 7 (by decide)
    (by norm_num [initBreaker, allowRequest, getState])
  exact ⟨h.2.1 "boom", h.2.2.2 200⟩

/-! ## Claim C9 -/

/-- C9 counterexample: the claim says every downstream request issued by the
Downstream Service Client (`call_engine`) forwards the inbound Authorization
header, but `call_engine` builds its header dict from scratch (lines
149-152) with no access to the inbound request at all: for the concrete
correlation id `"req-1"` the outgoing headers contain no Authorization
entry, whatever the inbound request carried. -/
theorem C9_counterexample :
    List.lookup "Authorization" (callEngineHeaders "req-1") = none := by
  decide

/-- C9 (amended): `call_engine` sends exactly the Content-Type and
X-Request-ID headers and never forwards an Authorization header; the
Authorization forwarding described by the spec exists only in the gateway's
direct proxy helper `proxy_request` (routes.py), which adds the inbound
Authorization header when present. -/
theorem C9_amended_no_auth_forwarding (rid ct a : String) :
    callEngineHeaders rid =
      [("Content-Type", "application/json"), ("X-Request-ID", rid)] ∧
    List.lookup "Authorization" (callEngineHeaders rid) = none ∧
    List.lookup "Authorization" (proxyRequestHeaders ct rid (some a)) = some a := by
  refine ⟨rfl, ?_, ?_⟩
  · simp [callEngineHeaders, List.lookup]
  · simp [proxyRequestHeaders, List.lookup]

/-! ## Pipeline embeddings

Each composite route of the orchestrator is embedded as a pure function from
the request's trace id and an oracle of per-step downstream outcomes to the
HTTP result — `Except.error` is an `HTTPException` raised by a critical
step, `Except.ok` an `ApiResponse` returned with HTTP 200 — together with
the list of downstream calls attempted, in program order.  Successful
downstream results are modelled as JSON objects, which is the shape every
pipeline consumes them at (through `dict.get`).  Wall-clock latency fields
and the payload bodies of downstream calls are not modelled. -/

/-- One downstream call attempted by a pipeline: target engine key, path and
the correlation id passed as `request_id` to `call_engine`. -/
structure CallRec where
  engine : String
  path : String
  requestId : String
deriving DecidableEq, Repr

/-- An `HTTPException` raised by a pipeline when a critical step fails. -/
structure HttpError where
  status : Nat
  detail : String
deriving DecidableEq, Repr

/-- The `ApiResponse` envelope fields set by the pipelines (the timestamp
and server-generated request-id fields are not modelled; `success` defaults
to `true` and `message` to `"OK"`). -/
structure ApiResp where
  success : Bool
  message : String
  data : JVal

/-- Outcome of one downstream step as seen by a pipeline: the JSON object
returned by `call_engine`, or the raised `EngineCallError`. -/
abbrev Step := Except EngineCallError Obj

/-- Python `a or b` on a JSON value. -/
def jor (a b : JVal) : JVal := if a.truthy then a else b

/-- Python `s or d` for an `int` status (`e.status or 500`): 0 is falsy. -/
def orElseNat (s d : Nat) : Nat := if s = 0 then d else s

/-- Python `len()` of a JSON value (non-sized values would raise a
`TypeError`; they are given length 0 here and are excluded by the
well-formedness hypotheses of the theorems that depend on lengths). -/
def arrLen : JVal → Nat
  | JVal.arr xs => xs.length
  | JVal.str s => s.length
  | JVal.obj fs => fs.length
  | _ => 0

/-- Python `v[:n]` on a fetched JSON value (string or list slicing; other
shapes would raise and are returned unchanged). -/
def jtake (n : Nat) : JVal → JVal
  | JVal.str s => JVal.str (s.take n)
  | JVal.arr xs => JVal.arr (xs.take n)
  | v => v

/-- The two fire-and-forget downstream writes scheduled by `audit_log`
(orchestrator.py lines 204-237), both carrying the pipeline's request id. -/
def auditCalls (rid : String) : List CallRec :=
  [⟨"raw_data_store", "/raw-data/events", rid⟩,
   ⟨"analytics_warehouse", "/analytics/event", rid⟩]

/-- Python dict merge `{**base, **upd}`: the right operand wins on key
clashes (insertion order is approximated; no theorem depends on it). -/
def dictMerge (base upd : Obj) : Obj :=
  base.filter (fun kv => (lookupField upd kv.1).isNone) ++ upd

/-- The `"results"` field of a vector-search response is a list of JSON
objects (the shape `orchestrated_query` iterates over; any other shape
would crash the handler with an `AttributeError`). -/
def objArray : JVal → Prop
  | JVal.arr xs => ∀ x ∈ xs, ∃ fs, x = JVal.obj fs
  | _ => False

/-- Well-formedness of a vector-search step outcome as consumed by the
query pipelines: on success its `"results"` field (default `[]`) is a list
of objects. -/
def VecWF : Step → Prop
  | Except.ok d => objArray (getD d "results" (JVal.arr []))
  | Except.error _ => True

/-! ### Query pipeline (orchestrated_query, orchestrator.py lines 307-440) -/

/-- Per-step outcomes for one run of the query pipeline.  `ragGen` is used
when retrieved passages exist, `chatGen` for the direct-chat fallback. -/
structure QueryOutcomes where
  intent : Step
  vector : Step
  ragGen : Step
  chatGen : Step
  anomaly : Step
  trust : Step

/-- Lines 340-341: `vector_results`, defaulting to `[]` when the vector
search failed or the key is absent. -/
def queryVectorResults (o : QueryOutcomes) : JVal :=
  match o.vector with
  | Except.ok d => getD d "results" (JVal.arr [])
  | Except.error _ => JVal.arr []

/-- Line 341: `[r.get("content", "") for r in vector_results if
r.get("content")]` (elements are dicts; a non-dict element would crash
Python and is skipped here, excluded by `VecWF`). -/
def contentPassages : JVal → List JVal
  | JVal.arr rs => rs.filterMap fun r =>
      match r with
      | JVal.obj fs =>
          if (getD fs "content" JVal.null).truthy then
            some (getD fs "content" (JVal.str ""))
          else none
      | _ => none
  | _ => []

/-- The retrieved context passages of one query run. -/
def queryPassages (o : QueryOutcomes) : List JVal :=
  contentPassages (queryVectorResults o)

/-- Lines 349-371: the generation call actually issued — `/ai/rag` when
context passages exist, else the `/ai/chat` fallback. -/
def queryGenCall (rid : String) (o : QueryOutcomes) : CallRec :=
  if (queryPassages o).isEmpty then ⟨"neural_network", "/ai/chat", rid⟩
  else ⟨"neural_network", "/ai/rag", rid⟩

/-- Outcome of the generation step actually taken. -/
def queryGen (o : QueryOutcomes) : Step :=
  if (queryPassages o).isEmpty then o.chatGen else o.ragGen

/-- Degradation markers accumulated before the generation step (order of
`degraded.append` at lines 329 and 344). -/
def queryDegradedPre (o : QueryOutcomes) : List String :=
  (match o.intent with
   | Except.ok _ => []
   | Except.error _ => ["intent_classification"]) ++
  (match o.vector with
   | Except.ok _ => []
   | Except.error _ => ["vector_search"])

/-- Line 434: the `sources` list built from the first five vector results. -/
def querySources : JVal → List JVal
  | JVal.arr rs => (rs.take 5).map fun r =>
      match r with
      | JVal.obj fs =>
          JVal.obj [("id", getD fs "vector_id" JVal.null),
                    ("score", getD fs "score" JVal.null),
                    ("content", jtake 200 (getD fs "content" (JVal.str "")))]
      | v => v
  | _ => []

/-- Function `orchestrated_query`: intent classification (optional), vector
search (optional), RAG generation with chat fallback (critical: on failure
it returns a `success = false` 200 response and stops), anomaly check and
trust scoring (parallel, optional), audit.  The `latency_ms` field is not
modelled. -/
def orchQuery (rid : String) (o : QueryOutcomes) :
    Except HttpError ApiResp × List CallRec :=
  let intentCall : CallRec := ⟨"neural_network", "/ai/intent", rid⟩
  let vectorCall : CallRec := ⟨"vector_database", "/vectors/search", rid⟩
  let intentData : Obj :=
    match o.intent with
    | Except.ok d => d
    | Except.error _ => [("intent", JVal.str "general"), ("confidence", JVal.num 0)]
  match queryGen o with
  | Except.error _ =>
      (Except.ok ⟨false, "AI service temporarily unavailable. Please try again.",
        JVal.obj [("degraded",
          JVal.arr ((queryDegradedPre o ++ ["ai_generation"]).map JVal.str))]⟩,
       [intentCall, vectorCall, queryGenCall rid o])
  | Except.ok answerData =>
      let anomalyData : JVal :=
        match o.anomaly with
        | Except.ok d => JVal.obj d
        | Except.error _ => JVal.obj []
      let trustData : JVal :=
        match o.trust with
        | Except.ok d => JVal.obj d
        | Except.error _ => JVal.obj []
      let degAnomaly : List String :=
        match o.anomaly with
        | Except.ok _ => []
        | Except.error _ => ["anomaly_check"]
      let degTrust : List String :=
        match o.trust with
        | Except.ok _ => []
        | Except.error _ => ["trust_scoring"]
      let degraded := queryDegradedPre o ++ degAnomaly ++ degTrust
      (Except.ok ⟨true, "OK",
        JVal.obj [
          ("response",
            jor (getD answerData "answer" JVal.null)
                (getD answerData "response" (JVal.str ""))),
          ("intent", getD intentData "intent" JVal.null),
          ("intent_confidence", getD intentData "confidence" JVal.null),
          ("sources", JVal.arr (querySources (queryVectorResults o))),
          ("anomaly", anomalyData),
          ("trust", trustData),
          ("degraded",
            if degraded.isEmpty then JVal.null
            else JVal.arr (degraded.map JVal.str))]⟩,
       [intentCall, vectorCall, queryGenCall rid o,
        ⟨"anomaly_detection", "/anomaly/check", rid⟩,
        ⟨"trust_scoring", "/trust/score", rid⟩] ++ auditCalls rid)

/-! ### Onboarding pipeline (orchestrated_onboard, lines 449-633) -/

/-- Per-step outcomes for one run of the onboarding pipeline. -/
structure OnboardOutcomes where
  register : Step
  identity : Step
  metadata : Step
  processedMeta : Step
  eligibility : Step
  deadlines : Step
  profileGen : Step

/-- Degradation markers of one onboarding run after a successful
registration, in `degraded.append` order (lines 501-603). -/
def onboardDegraded (o : OnboardOutcomes) : List String :=
  (match o.identity with
   | Except.ok _ => []
   | Except.error _ => ["identity_creation"]) ++
  (match o.metadata with
   | Except.ok _ => []
   | Except.error _ => ["metadata_normalization"]) ++
  (match o.processedMeta with
   | Except.ok _ => []
   | Except.error _ => ["processed_metadata_store"]) ++
  (match o.eligibility with
   | Except.ok _ => []
   | Except.error _ => ["eligibility_check"]) ++
  (match o.deadlines with
   | Except.ok _ => []
   | Except.error _ => ["deadline_check"]) ++
  (match o.profileGen with
   | Except.ok _ => []
   | Except.error _ => ["profile_generation"])

/-- Function `orchestrated_onboard`: registration is the critical first step
(on `EngineCallError` it raises `HTTPException(e.status or 500)` before any
other downstream call); identity, metadata, processed-metadata,
eligibility ∥ deadlines, and profile generation are optional; audit last. -/
def orchOnboard (rid : String) (o : OnboardOutcomes) :
    Except HttpError ApiResp × List CallRec :=
  let registerCall : CallRec := ⟨"login_register", "/auth/register", rid⟩
  match o.register with
  | Except.error e =>
      (Except.error ⟨orElseNat e.status 500, "Registration failed: " ++ e.detail⟩,
       [registerCall])
  | Except.ok regData =>
      let identityToken : JVal :=
        match o.identity with
        | Except.ok d => getD d "identity_token" (JVal.str "")
        | Except.error _ => JVal.str ""
      -- profile_data (step 3's output) only feeds later call payloads,
      -- which are not modelled
      let eligibilityData : Obj :=
        match o.eligibility with
        | Except.ok d => d
        | Except.error _ => []
      let deadlinesData : Obj :=
        match o.deadlines with
        | Except.ok d => d
        | Except.error _ => []
      let profileJson : Obj :=
        match o.profileGen with
        | Except.ok d => d
        | Except.error _ => []
      let degraded := onboardDegraded o
      (Except.ok ⟨true,
        if degraded.isEmpty then "Onboarding complete"
        else "Onboarding complete with some services degraded",
        JVal.obj [
          ("user_id", getD regData "user_id" (JVal.str "")),
          ("access_token", getD regData "access_token" (JVal.str "")),
          ("refresh_token", getD regData "refresh_token" (JVal.str "")),
          ("identity_token", identityToken),
          ("eligibility_summary",
            if (JVal.obj eligibilityData).truthy then
              JVal.obj [
                ("eligible", getD eligibilityData "eligible" (JVal.num 0)),
                ("partial", getD eligibilityData "partial" (JVal.num 0)),
                ("total_checked",
                  getD eligibilityData "total_schemes_checked" (JVal.num 0))]
            else JVal.null),
          ("upcoming_deadlines",
            if (JVal.obj deadlinesData).truthy then
              getD deadlinesData "total_deadlines" (JVal.num 0)
            else JVal.null),
          ("profile_completeness",
            if (JVal.obj profileJson).truthy then
              getD profileJson "completeness" JVal.null
            else JVal.null),
          ("degraded",
            if degraded.isEmpty then JVal.null
            else JVal.arr (degraded.map JVal.str))]⟩,
       [registerCall,
        ⟨"identity", "/identity/create", rid⟩,
        ⟨"metadata", "/metadata/process", rid⟩,
        ⟨"processed_metadata", "/processed-metadata/store", rid⟩,
        ⟨"eligibility_rules", "/eligibility/check", rid⟩,
        ⟨"deadline_monitoring", "/deadlines/check", rid⟩,
        ⟨"json_user_info", "/profile/generate", rid⟩] ++ auditCalls rid)

/-! ## Claim C4 -/

/-- C4: in the onboarding pipeline, when the registration step fails with an
`EngineCallError`, the result is exactly an HTTPException whose status is
the failure status — 500 when the error carries status 0, i.e. no usable
status — and the only downstream call attempted is the registration call:
no identity, metadata, processed-metadata, eligibility, deadline, profile
or audit call is made. -/
theorem C4_onboard_register_abort
    (rid : String) (o : OnboardOutcomes) (e : EngineCallError)
    (h : o.register = Except.error e) :
    orchOnboard rid o =
      (Except.error ⟨orElseNat e.status 500, "Registration failed: " ++ e.detail⟩,
       [⟨"login_register", "/auth/register", rid⟩]) := by
  simp [orchOnboard, h]

/-- Concrete onboarding outcomes where registration fails with a 409 and
every other step would have succeeded. -/
def regFailOutcomes : OnboardOutcomes :=
  ⟨Except.error ⟨"login_register", 409, "phone already registered"⟩,
   Except.ok [], Except.ok [], Except.ok [], Except.ok [], Except.ok [], Except.ok []⟩

/-- Witness for C4: a 409 registration failure surfaces as HTTP 409 with a
single downstream call. -/
theorem C4_onboard_register_abort_witness :
    orchOnboard "req-9" regFailOutcomes =
      (Except.error ⟨409, "Registration failed: " ++ "phone already registered"⟩,
       [⟨"login_register", "/auth/register", "req-9"⟩]) := by
  have h := C4_onboard_register_abort "req-9" regFailOutcomes
    ⟨"login_register", 409, "phone already registered"⟩ rfl
  rw [h]
  rfl

/-! ## Claim C5 -/

/-- C5: in the query pipeline, when the generation step actually taken (RAG
when passages were retrieved, else the chat fallback) fails with an
`EngineCallError`, the pipeline returns HTTP 200 with `success = false`,
message "AI service temporarily unavailable. Please try again.", and a data
object whose only entry is the degraded list — the markers accumulated so
far with "ai_generation" appended — and the only downstream calls attempted
are intent classification, vector search and the generation call: no
anomaly check, trust scoring or audit write is attempted.  `VecWF` pins the
vector results to the list-of-objects shape the handler iterates over. -/
theorem C5_query_generation_critical
    (rid : String) (o : QueryOutcomes) (e : EngineCallError)
    (_hwf : VecWF o.vector) (hg : queryGen o = Except.error e) :
    orchQuery rid o =
      (Except.ok ⟨false, "AI service temporarily unavailable. Please try again.",
        JVal.obj [("degraded",
          JVal.arr ((queryDegradedPre o ++ ["ai_generation"]).map JVal.str))]⟩,
       [⟨"neural_network", "/ai/intent", rid⟩,
        ⟨"vector_database", "/vectors/search", rid⟩,
        queryGenCall rid o]) ∧
    ∀ c ∈ (orchQuery rid o).2,
      c.engine ≠ "anomaly_detection" ∧ c.engine ≠ "trust_scoring" ∧
      c.engine ≠ "raw_data_store" ∧ c.engine ≠ "analytics_warehouse" := by
  have h1 : orchQuery rid o =
      (Except.ok ⟨false, "AI service temporarily unavailable. Please try again.",
        JVal.obj [("degraded",
          JVal.arr ((queryDegradedPre o ++ ["ai_generation"]).map JVal.str))]⟩,
       [⟨"neural_network", "/ai/intent", rid⟩,
        ⟨"vector_database", "/vectors/search", rid⟩,
        queryGenCall rid o]) := by
    simp [orchQuery, hg]
  refine ⟨h1, ?_⟩
  rw [h1]
  intro c hc
  simp only [List.mem_cons, List.not_mem_nil, or_false] at hc
  rcases hc with rfl | rfl | rfl
  · exact ⟨by simp, by simp, by simp, by simp⟩
  · exact ⟨by simp, by simp, by simp, by simp⟩
  · unfold queryGenCall
    split <;> exact ⟨by simp, by simp, by simp, by simp⟩

/-- Concrete query outcomes: one retrieved passage, RAG generation fails,
everything else would have succeeded. -/
def genFailOutcomes : QueryOutcomes :=
  ⟨Except.ok [("intent", JVal.str "scheme_query"), ("confidence", JVal.num 1)],
   Except.ok [("results", JVal.arr [JVal.obj [("content", JVal.str "passage")]])],
   Except.error ⟨"neural_network", 503, "rag down"⟩,
   Except.ok [("response", JVal.str "unused")],
   Except.ok [], Except.ok []⟩

/-- Witness for C5: with one retrieved passage and a failing RAG step, the
response is a 200 with `success = false` and degraded `["ai_generation"]`,
and the trace stops at the RAG call. -/
theorem C5_query_generation_critical_witness :
    orchQuery "q-1" genFailOutcomes =
      (Except.ok ⟨false, "AI service temporarily unavailable. Please try again.",
        JVal.obj [("degraded", JVal.arr [JVal.str "ai_generation"])]⟩,
       [⟨"neural_network", "/ai/intent", "q-1"⟩,
        ⟨"vector_database", "/vectors/search", "q-1"⟩,
        ⟨"neural_network", "/ai/rag", "q-1"⟩]) := by
  have h := (C5_query_generation_critical "q-1" genFailOutcomes
    ⟨"neural_network", 503, "rag down"⟩
    (by simp [VecWF, genFailOutcomes, getD, lookupField, objArray]) rfl).1
  rw [h]
  rfl

/-! ### Eligibility pipeline (orchestrated_eligibility, lines 641-707) -/

/-- Per-step outcomes for one run of the eligibility pipeline. -/
structure EligOutcomes where
  elig : Step
  summarize : Step

/-- Function `orchestrated_eligibility`: the eligibility check is critical
(HTTPException with `e.status or 500` on failure); the AI explanation is
attempted only when `explain` is set and degrades to `ai_explanation`. -/
def orchEligibility (rid : String) (explain : Bool) (o : EligOutcomes) :
    Except HttpError ApiResp × List CallRec :=
  let eligCall : CallRec := ⟨"eligibility_rules", "/eligibility/check", rid⟩
  match o.elig with
  | Except.error e =>
      (Except.error ⟨orElseNat e.status 500,
        "Eligibility engine unavailable: " ++ e.detail⟩, [eligCall])
  | Except.ok eligData =>
      let summarizeCall : CallRec := ⟨"neural_network", "/ai/summarize", rid⟩
      let explanation : JVal :=
        if explain then
          match o.summarize with
          | Except.ok d => getD d "summary" (JVal.str "")
          | Except.error _ => JVal.null
        else JVal.null
      let degraded : List String :=
        if explain then
          match o.summarize with
          | Except.ok _ => []
          | Except.error _ => ["ai_explanation"]
        else []
      (Except.ok ⟨true, "OK",
        JVal.obj (dictMerge eligData
          [("explanation", explanation),
           ("degraded",
             if degraded.isEmpty then JVal.null
             else JVal.arr (degraded.map JVal.str))])⟩,
       [eligCall] ++ (if explain then [summarizeCall] else []) ++ auditCalls rid)

/-! ### Simulation pipeline (orchestrated_simulate, lines 1063-1126) -/

/-- Per-step outcomes for one run of the simulation pipeline. -/
structure SimOutcomes where
  sim : Step
  summarize : Step

/-- Function `orchestrated_simulate`: the simulation call is critical
(HTTPException with `e.status or 500` on failure); the AI explanation is
attempted only when `explain` is set and degrades to `ai_explanation`. -/
def orchSimulate (rid : String) (explain : Bool) (o : SimOutcomes) :
    Except HttpError ApiResp × List CallRec :=
  let simCall : CallRec := ⟨"simulation", "/simulate/what-if", rid⟩
  match o.sim with
  | Except.error e =>
      (Except.error ⟨orElseNat e.status 500,
        "Simulation engine unavailable: " ++ e.detail⟩, [simCall])
  | Except.ok simData =>
      let summarizeCall : CallRec := ⟨"neural_network", "/ai/summarize", rid⟩
      let explanation : JVal :=
        if explain then
          match o.summarize with
          | Except.ok d => getD d "summary" (JVal.str "")
          | Except.error _ => JVal.null
        else JVal.null
      let degraded : List String :=
        if explain then
          match o.summarize with
          | Except.ok _ => []
          | Except.error _ => ["ai_explanation"]
        else []
      (Except.ok ⟨true, "OK",
        JVal.obj (dictMerge simData
          [("explanation", explanation),
           ("degraded",
             if degraded.isEmpty then JVal.null
             else JVal.arr (degraded.map JVal.str))])⟩,
       [simCall] ++ (if explain then [summarizeCall] else []) ++ auditCalls rid)

/-! ### Policy ingestion pipeline (orchestrated_ingest_policy, lines 716-899) -/

/-- Per-step outcomes for one run of the ingestion pipeline. -/
structure IngestOutcomes where
  fetch : Step
  parse : Step
  chunk : Step
  embed : Step
  upsert : Step
  metaTag : Step

/-- Line 791: the chunk list of one ingestion run (default `[]`). -/
def ingestChunks (o : IngestOutcomes) : JVal :=
  match o.chunk with
  | Except.ok d => getD d "chunks" (JVal.arr [])
  | Except.error _ => JVal.arr []

/-- Line 820: the embeddings list of one ingestion run (default `[]`). -/
def ingestEmbeddings (o : IngestOutcomes) : JVal :=
  match o.embed with
  | Except.ok d => getD d "embeddings" (JVal.arr [])
  | Except.error _ => JVal.arr []

/-- Line 827: whether the upsert branch is taken — `embeddings` truthy and
`len(embeddings) == len(chunks)`. -/
def ingestUpsertTaken (o : IngestOutcomes) : Bool :=
  (ingestEmbeddings o).truthy &&
    decide (arrLen (ingestEmbeddings o) = arrLen (ingestChunks o))

/-- Degradation markers of one full ingestion run (fetch succeeded with
text, chunking produced a truthy list), in `degraded.append` order. -/
def ingestDegraded (o : IngestOutcomes) : List String :=
  (match o.parse with
   | Except.ok _ => []
   | Except.error _ => ["document_parsing"]) ++
  (match o.chunk with
   | Except.ok _ => []
   | Except.error _ => ["chunking"]) ++
  (match o.embed with
   | Except.ok _ => []
   | Except.error _ => ["embedding"]) ++
  (if ingestUpsertTaken o then
    match o.upsert with
    | Except.ok _ => []
    | Except.error _ => ["vector_upsert"]
   else if (ingestEmbeddings o).truthy then ["embedding_mismatch"] else []) ++
  (match o.metaTag with
   | Except.ok _ => []
   | Except.error _ => ["metadata_tagging"])

/-- Function `orchestrated_ingest_policy`: fetch is critical (HTTPException
with `e.status or 502`); an empty fetched text returns a `success = false`
200 response; a falsy chunk list returns a distinct partial-ingestion 200
response; embedding, upsert (guarded by the count match at line 827),
metadata tagging and audit follow.  `freshId` stands for the
`str(uuid.uuid4())` default document id. -/
def orchIngest (rid sourceUrl freshId : String) (o : IngestOutcomes) :
    Except HttpError ApiResp × List CallRec :=
  let fetchCall : CallRec := ⟨"policy_fetching", "/schemes/fetch", rid⟩
  match o.fetch with
  | Except.error e =>
      (Except.error ⟨orElseNat e.status 502, "Policy fetch failed: " ++ e.detail⟩,
       [fetchCall])
  | Except.ok fetchData =>
      let docId := jor (getD fetchData "document_id" JVal.null)
        (getD fetchData "id" (JVal.str freshId))
      let policyId := jor (getD fetchData "policy_id" JVal.null)
        (getD fetchData "scheme_id" docId)
      let rawText := jor (getD fetchData "text" JVal.null)
        (getD fetchData "content" (JVal.str ""))
      let title := getD fetchData "title" (JVal.str sourceUrl)
      if !rawText.truthy then
        (Except.ok ⟨false, "Fetched document has no text content.",
          JVal.obj [("document_id", docId), ("source_url", JVal.str sourceUrl)]⟩,
         [fetchCall])
      else
        let parsedData : Obj :=
          match o.parse with
          | Except.ok d => d
          | Except.error _ => []
        let parseCall : CallRec := ⟨"doc_understanding", "/documents/parse", rid⟩
        let chunkCall : CallRec := ⟨"chunks", "/chunks/create", rid⟩
        let chunks := ingestChunks o
        let degPreChunk : List String :=
          (match o.parse with
           | Except.ok _ => []
           | Except.error _ => ["document_parsing"]) ++
          (match o.chunk with
           | Except.ok _ => []
           | Except.error _ => ["chunking"])
        if !chunks.truthy then
          (Except.ok ⟨true, "Document fetched but chunking failed. Partial ingestion.",
            JVal.obj [("document_id", docId), ("policy_id", policyId),
              ("parsed", JVal.bool (JVal.obj parsedData).truthy),
              ("chunks_created", JVal.num 0), ("vectors_upserted", JVal.num 0),
              ("degraded", JVal.arr (degPreChunk.map JVal.str))]⟩,
           [fetchCall, parseCall, chunkCall])
        else
          let embedCall : CallRec := ⟨"neural_network", "/ai/embeddings", rid⟩
          let upsertCall : CallRec := ⟨"vector_database", "/vectors/upsert/batch", rid⟩
          let vectorsUpserted : JVal :=
            if ingestUpsertTaken o then
              match o.upsert with
              | Except.ok d => getD d "inserted" (JVal.num (arrLen chunks))
              | Except.error _ => JVal.num 0
            else JVal.num 0
          let metaCall : CallRec := ⟨"metadata", "/metadata/process", rid⟩
          let degraded := ingestDegraded o
          (Except.ok ⟨true,
            if degraded.isEmpty then "Policy ingestion complete"
            else "Policy ingestion complete with some steps degraded",
            JVal.obj [
              ("document_id", docId),
              ("policy_id", policyId),
              ("title", title),
              ("chunks_created", JVal.num (arrLen chunks)),
              ("vectors_upserted", vectorsUpserted),
              ("parsed_fields",
                if (JVal.obj parsedData).truthy then
                  JVal.arr (parsedData.map fun kv => JVal.str kv.1)
                else JVal.arr []),
              ("degraded",
                if degraded.isEmpty then JVal.null
                else JVal.arr (degraded.map JVal.str))]⟩,
           [fetchCall, parseCall, chunkCall, embedCall] ++
             (if ingestUpsertTaken o then [upsertCall] else []) ++
             [metaCall] ++ auditCalls rid)

/-! ### Voice pipeline (orchestrated_voice_query, lines 907-1055) -/

/-- Python `f"...{v}..."` interpolation of a JSON value (`str()` without the
quoting that `repr` adds to strings). -/
def pyFmt : JVal → String
  | JVal.str s => s
  | v => pyStr v

/-- Per-step outcomes for one run of the voice pipeline (only the branch
selected by the classified intent is consulted). -/
structure VoiceOutcomes where
  intent : Step
  elig : Step
  vector : Step
  ragGen : Step
  chatGen : Step
  deadline : Step
  chat : Step
  translate : Step
  tts : Step

/-- Line 936: `(intent_data.get("intent") or "general").lower()` (a
non-string intent value would crash `.lower()` and yields `""` here). -/
def voiceIntent (o : VoiceOutcomes) : String :=
  let intentData : Obj :=
    match o.intent with
    | Except.ok d => d
    | Except.error _ => [("intent", JVal.str "general"), ("confidence", JVal.num 0)]
  match jor (getD intentData "intent" JVal.null) (JVal.str "general") with
  | JVal.str s => s.toLower
  | _ => ""

/-- Lines 939-1003: the intent-routed branch, producing the response text,
the degradation markers of the branch (a failing branch is caught by the
surrounding handler, which sets the apology text and appends
`intent_routing`), and the downstream calls attempted inside the branch. -/
def voiceRoute (rid : String) (o : VoiceOutcomes) :
    JVal × List String × List CallRec :=
  let it := voiceIntent o
  let apology :=
    JVal.str "I\x27m sorry, the service is temporarily unavailable. Please try again."
  let vecCall : CallRec := ⟨"vector_database", "/vectors/search", rid⟩
  let ragCall : CallRec := ⟨"neural_network", "/ai/rag", rid⟩
  let chatCall : CallRec := ⟨"neural_network", "/ai/chat", rid⟩
  if it = "eligibility" ∨ it = "eligibility_check" then
    let eligCall : CallRec := ⟨"eligibility_rules", "/eligibility/check", rid⟩
    match o.elig with
    | Except.ok d =>
        (JVal.str ("You are eligible for " ++ pyFmt (getD d "eligible" (JVal.num 0)) ++
          " schemes. Total schemes checked: " ++
          pyFmt (getD d "total_schemes_checked" (JVal.num 0)) ++ "."),
         [], [eligCall])
    | Except.error _ => (apology, ["intent_routing"], [eligCall])
  else if it = "scheme_query" ∨ it = "scheme_info" ∨ it = "policy" then
    match o.vector with
    | Except.error _ => (apology, ["intent_routing"], [vecCall])
    | Except.ok d =>
        let passages := contentPassages (getD d "results" (JVal.arr []))
        if !passages.isEmpty then
          match o.ragGen with
          | Except.ok rd =>
              (getD rd "answer" (JVal.str "I could not find relevant information."),
               [], [vecCall, ragCall])
          | Except.error _ => (apology, ["intent_routing"], [vecCall, ragCall])
        else
          match o.chatGen with
          | Except.ok cd =>
              (getD cd "response" (JVal.str "I could not find relevant information."),
               [], [vecCall, chatCall])
          | Except.error _ => (apology, ["intent_routing"], [vecCall, chatCall])
  else if it = "deadline" then
    let deadlineCall : CallRec := ⟨"deadline_monitoring", "/deadlines/check", rid⟩
    match o.deadline with
    | Except.ok d =>
        (JVal.str ("You have " ++ pyFmt (getD d "total_deadlines" (JVal.num 0)) ++
          " upcoming deadlines. " ++ pyFmt (getD d "critical" (JVal.num 0)) ++
          " are critical."),
         [], [deadlineCall])
    | Except.error _ => (apology, ["intent_routing"], [deadlineCall])
  else
    match o.chat with
    | Except.ok cd =>
        (getD cd "response"
          (JVal.str "I\x27m sorry, I couldn\x27t understand. Please try again."),
         [], [chatCall])
    | Except.error _ => (apology, ["intent_routing"], [chatCall])

/-- Function `orchestrated_voice_query`: intent classification (optional),
intent-routed branch (apology text and `intent_routing` marker on failure),
optional translation when the target language is not English, text-to-speech
(optional), audit. -/
def orchVoice (rid : String) (text language : String) (o : VoiceOutcomes) :
    Except HttpError ApiResp × List CallRec :=
  let intentCall : CallRec := ⟨"neural_network", "/ai/intent", rid⟩
  let degIntent : List String :=
    match o.intent with
    | Except.ok _ => []
    | Except.error _ => ["intent_classification"]
  let routed := voiceRoute rid o
  let respText0 := routed.1
  let translateNeeded := language != "english" && language != "en" && respText0.truthy
  let transStep : JVal × List String × List CallRec :=
    if translateNeeded then
      match o.translate with
      | Except.ok d =>
          (getD d "translated" respText0, [], [⟨"neural_network", "/ai/translate", rid⟩])
      | Except.error _ =>
          (respText0, ["translation"], [⟨"neural_network", "/ai/translate", rid⟩])
    else (respText0, [], [])
  let ttsData : Obj :=
    match o.tts with
    | Except.ok d => d
    | Except.error _ => []
  let degTts : List String :=
    match o.tts with
    | Except.ok _ => []
    | Except.error _ => ["text_to_speech"]
  let degraded := degIntent ++ routed.2.1 ++ transStep.2.1 ++ degTts
  (Except.ok ⟨true, "OK",
    JVal.obj [
      ("query", JVal.str text),
      ("response", transStep.1),
      ("intent", JVal.str (voiceIntent o)),
      ("language", JVal.str language),
      ("audio_session_id", getD ttsData "session_id" JVal.null),
      ("audio_available", getD ttsData "audio_available" (JVal.bool false)),
      ("degraded",
        if degraded.isEmpty then JVal.null
        else JVal.arr (degraded.map JVal.str))]⟩,
   [intentCall] ++ routed.2.2 ++ transStep.2.2 ++
     [⟨"speech_interface", "/speech/tts", rid⟩] ++ auditCalls rid)

/-! ## Claim C6 -/

/-- Field lookup in a response's data object. -/
def respDataField (r : ApiResp) (key : String) : Option JVal :=
  match r.data with
  | JVal.obj fs => lookupField fs key
  | _ => none

/-- Concrete ingestion outcomes in which every call succeeds but the
embedding engine returns an empty embeddings list for one chunk. -/
def ingestZeroEmbedOutcomes : IngestOutcomes :=
  ⟨Except.ok [("document_id", JVal.str "d1"), ("policy_id", JVal.str "p1"),
              ("text", JVal.str "body text"), ("title", JVal.str "T")],
   Except.ok [("state", JVal.str "KA")],
   Except.ok [("chunks", JVal.arr [JVal.obj [("chunk_id", JVal.str "c0"),
              ("content", JVal.str "body text")]])],
   Except.ok [("embeddings", JVal.arr [])],
   Except.ok [],
   Except.ok []⟩

/-- C6 counterexample: the claim says that when the embedding step yields
zero embeddings for N ≥ 1 chunks the response's degraded list contains
"embedding".  But when the embedding call *succeeds* with an empty list (as
opposed to raising), the code appends nothing: concretely, with one chunk
and a successful embedding call returning zero embeddings, the final
degraded list is empty (the response carries `degraded = null`), although
the upsert call is indeed skipped. -/
theorem C6_counterexample :
    ingestDegraded ingestZeroEmbedOutcomes = [] ∧
    ((orchIngest "r-1" "http://src" "fresh" ingestZeroEmbedOutcomes).1.toOption.map
      (fun r => respDataField r "degraded")) = some (some JVal.null) ∧
    ((orchIngest "r-1" "http://src" "fresh" ingestZeroEmbedOutcomes).2.all
      (fun c => c.path != "/vectors/upsert/batch")) = true := by
  refine ⟨rfl, rfl, rfl⟩

/-- C6 (amended): in a policy-ingestion run that produced a truthy chunk
list (N ≥ 1 chunks): (i) if the embedding *call fails*, the vector-upsert
call is skipped and the response's degraded list contains "embedding";
(ii) if the call succeeds with zero embeddings, the upsert is skipped with
no embedding-related degraded marker; (iii) if it succeeds with a nonzero
count different from N, the upsert is skipped and the degraded list
contains "embedding_mismatch" and not "embedding". -/
theorem C6_amended_ingest_embedding_degradation
    (rid su fid : String) (o : IngestOutcomes)
    (fd : Obj) (hf : o.fetch = Except.ok fd)
    (htext : (jor (getD fd "text" JVal.null)
      (getD fd "content" (JVal.str ""))).truthy = true)
    (cd : Obj) (hc : o.chunk = Except.ok cd)
    (cs : List JVal) (hcs : getD cd "chunks" (JVal.arr []) = JVal.arr cs)
    (hne : cs ≠ [])
    (_hwf : ∀ c ∈ cs, ∃ fs, c = JVal.obj fs) :
    (∀ e, o.embed = Except.error e →
      "embedding" ∈ ingestDegraded o ∧
      ingestUpsertTaken o = false ∧
      (orchIngest rid su fid o).2 =
        [⟨"policy_fetching", "/schemes/fetch", rid⟩,
         ⟨"doc_understanding", "/documents/parse", rid⟩,
         ⟨"chunks", "/chunks/create", rid⟩,
         ⟨"neural_network", "/ai/embeddings", rid⟩,
         ⟨"metadata", "/metadata/process", rid⟩] ++ auditCalls rid ∧
      ((orchIngest rid su fid o).1.toOption.map (fun r => respDataField r "degraded")) =
        some (some (JVal.arr ((ingestDegraded o).map JVal.str)))) ∧
    (∀ ed, o.embed = Except.ok ed →
      getD ed "embeddings" (JVal.arr []) = JVal.arr [] →
      "embedding" ∉ ingestDegraded o ∧
      "embedding_mismatch" ∉ ingestDegraded o ∧
      ingestUpsertTaken o = false ∧
      (orchIngest rid su fid o).2 =
        [⟨"policy_fetching", "/schemes/fetch", rid⟩,
         ⟨"doc_understanding", "/documents/parse", rid⟩,
         ⟨"chunks", "/chunks/create", rid⟩,
         ⟨"neural_network", "/ai/embeddings", rid⟩,
         ⟨"metadata", "/metadata/process", rid⟩] ++ auditCalls rid) ∧
    (∀ ed es, o.embed = Except.ok ed →
      getD ed "embeddings" (JVal.arr []) = JVal.arr es →
      es ≠ [] → es.length ≠ cs.length →
      "embedding_mismatch" ∈ ingestDegraded o ∧
      "embedding" ∉ ingestDegraded o ∧
      ingestUpsertTaken o = false ∧
      (orchIngest rid su fid o).2 =
        [⟨"policy_fetching", "/schemes/fetch", rid⟩,
         ⟨"doc_understanding", "/documents/parse", rid⟩,
         ⟨"chunks", "/chunks/create", rid⟩,
         ⟨"neural_network", "/ai/embeddings", rid⟩,
         ⟨"metadata", "/metadata/process", rid⟩] ++ auditCalls rid ∧
      ((orchIngest rid su fid o).1.toOption.map (fun r => respDataField r "degraded")) =
        some (some (JVal.arr ((ingestDegraded o).map JVal.str)))) := by
  have hchunks : ingestChunks o = JVal.arr cs := by
    simp [ingestChunks, hc, hcs]
  have htr : (JVal.arr cs).truthy = true := by
    simp [JVal.truthy, List.isEmpty_eq_true, hne]
  refine ⟨?_, ?_, ?_⟩
  · intro e he
    have hemb : ingestEmbeddings o = JVal.arr [] := by
      simp [ingestEmbeddings, he]
    have htaken : ingestUpsertTaken o = false := by
      simp [ingestUpsertTaken, hemb, JVal.truthy]
    have hmem : "embedding" ∈ ingestDegraded o := by
      simp [ingestDegraded, he]
    have hnonempty : (ingestDegraded o).isEmpty = false := by
      cases h' : (ingestDegraded o).isEmpty
      · rfl
      · rw [List.isEmpty_iff.mp h'] at hmem
        exact absurd hmem (List.not_mem_nil _)
    have hnil : ¬ ingestDegraded o = [] := by
      intro hnil
      rw [hnil] at hmem
      exact List.not_mem_nil _ hmem
    refine ⟨hmem, htaken, ?_, ?_⟩
    · simp [orchIngest, hf, htext, hchunks, htr, htaken]
    · simp only [orchIngest, hf, htext, hchunks, htr, htaken, respDataField, hnil]
      simp [hnil, lookupField]
      exact ⟨_, rfl, by simp [lookupField]⟩
  · intro ed he hemb0
    have hemb : ingestEmbeddings o = JVal.arr [] := by
      simp [ingestEmbeddings, he, hemb0]
    have htaken : ingestUpsertTaken o = false := by
      simp [ingestUpsertTaken, hemb, JVal.truthy]
    refine ⟨?_, ?_, htaken, ?_⟩
    · simp [ingestDegraded, he, htaken, hemb, JVal.truthy]
      rcases o.parse with _ | _ <;> rcases o.metaTag with _ | _ <;>
        simp [hc]
    · simp [ingestDegraded, he, htaken, hemb, JVal.truthy]
      rcases o.parse with _ | _ <;> rcases o.metaTag with _ | _ <;>
        simp [hc]
    · simp [orchIngest, hf, htext, hchunks, htr, htaken]
  · intro ed es he hembs hesne hlen
    have hemb : ingestEmbeddings o = JVal.arr es := by
      simp [ingestEmbeddings, he, hembs]
    have htaken : ingestUpsertTaken o = false := by
      simp [ingestUpsertTaken, hemb, hchunks, JVal.truthy, arrLen]
      intro _
      exact hlen
    have htruthy : (ingestEmbeddings o).truthy = true := by
      simp [hemb, JVal.truthy, List.isEmpty_eq_true, hesne]
    have hmem : "embedding_mismatch" ∈ ingestDegraded o := by
      simp [ingestDegraded, he, htaken, htruthy]
    have hnomem : "embedding" ∉ ingestDegraded o := by
      simp [ingestDegraded, he, htaken, htruthy]
      rcases o.parse with _ | _ <;> rcases o.metaTag with _ | _ <;>
        simp [hc]
    have hnonempty : (ingestDegraded o).isEmpty = false := by
      cases h' : (ingestDegraded o).isEmpty
      · rfl
      · rw [List.isEmpty_iff.mp h'] at hmem
        exact absurd hmem (List.not_mem_nil _)
    have hnil : ¬ ingestDegraded o = [] := by
      intro hnil2
      rw [hnil2] at hmem
      exact List.not_mem_nil _ hmem
    refine ⟨hmem, hnomem, htaken, ?_, ?_⟩
    · simp [orchIngest, hf, htext, hchunks, htr, htaken]
    · simp only [orchIngest, hf, htext, hchunks, htr, htaken, respDataField, hnil]
      simp [hnil, lookupField]
      exact ⟨_, rfl, by simp [lookupField]⟩

/-- Concrete ingestion outcomes in which the embedding call fails. -/
def ingestEmbedFailOutcomes : IngestOutcomes :=
  ⟨Except.ok [("text", JVal.str "body")],
   Except.ok [],
   Except.ok [("chunks", JVal.arr [JVal.obj [("content", JVal.str "body")]])],
   Except.error ⟨"neural_network", 503, "embeddings down"⟩,
   Except.ok [], Except.ok []⟩

/-- Concrete ingestion outcomes in which the embedding call succeeds with
two embeddings for a single chunk. -/
def ingestMismatchOutcomes : IngestOutcomes :=
  ⟨Except.ok [("text", JVal.str "body")],
   Except.ok [],
   Except.ok [("chunks", JVal.arr [JVal.obj [("content", JVal.str "body")]])],
   Except.ok [("embeddings", JVal.arr [JVal.num 1, JVal.num 2])],
   Except.ok [], Except.ok []⟩

/-- Witness for C6 (amended): a failing embedding call yields the
"embedding" marker with the upsert skipped; a 2-vs-1 count mismatch yields
"embedding_mismatch" with the upsert skipped. -/
theorem C6_amended_witness :
    ("embedding" ∈ ingestDegraded ingestEmbedFailOutcomes ∧
      ingestUpsertTaken ingestEmbedFailOutcomes = false) ∧
    ("embedding_mismatch" ∈ ingestDegraded ingestMismatchOutcomes ∧
      ingestUpsertTaken ingestMismatchOutcomes = false) := by
  constructor
  · have h := (C6_amended_ingest_embedding_degradation "r-2" "http://src" "fresh"
      ingestEmbedFailOutcomes [("text", JVal.str "body")] rfl rfl
      [("chunks", JVal.arr [JVal.obj [("content", JVal.str "body")]])] rfl
      [JVal.obj [("content", JVal.str "body")]] rfl (by simp)
      (by intro c hcc; simp at hcc; exact ⟨_, hcc⟩)).1
      ⟨"neural_network", 503, "embeddings down"⟩ rfl
    exact ⟨h.1, h.2.1⟩
  · have h := (C6_amended_ingest_embedding_degradation "r-3" "http://src" "fresh"
      ingestMismatchOutcomes [("text", JVal.str "body")] rfl rfl
      [("chunks", JVal.arr [JVal.obj [("content", JVal.str "body")]])] rfl
      [JVal.obj [("content", JVal.str "body")]] rfl (by simp)
      (by intro c hcc; simp at hcc; exact ⟨_, hcc⟩)).2.2
      [("embeddings", JVal.arr [JVal.num 1, JVal.num 2])]
      [JVal.num 1, JVal.num 2] rfl rfl (by simp) (by norm_num)
    exact ⟨h.1, h.2.2.1⟩

/-! ## Claim C7 -/

/-- Concrete query outcomes: vector search fails, the chat fallback and
everything else succeed. -/
def vecFailOutcomes : QueryOutcomes :=
  ⟨Except.ok [("intent", JVal.str "general"), ("confidence", JVal.num 1)],
   Except.error ⟨"vector_database", 503, "vector down"⟩,
   Except.ok [],
   Except.ok [("response", JVal.str "hello from chat")],
   Except.ok [], Except.ok []⟩

/-- C7 counterexample: two concrete refutations.  (a) A query run whose
critical generation step fails returns HTTP 200 (an `ApiResponse`, not an
HTTPException) with `success = false` — contradicting "every critical-step
failure yields a non-2xx HTTP response".  (b) A query run that completes
with `degraded = ["vector_search"]` returns the default message "OK" — not
"a message noting partial degradation". -/
theorem C7_counterexample :
    ((orchQuery "q-2" genFailOutcomes).1.toOption.map
      (fun r => (r.success, r.message))) =
      some (false, "AI service temporarily unavailable. Please try again.") ∧
    ((orchQuery "q-3" vecFailOutcomes).1.toOption.map
      (fun r => (r.success, r.message))) = some (true, "OK") ∧
    ((orchQuery "q-3" vecFailOutcomes).1.toOption.map
      (fun r => respDataField r "degraded")) =
      some (some (JVal.arr [JVal.str "vector_search"])) := by
  refine ⟨rfl, rfl, rfl⟩

/-- C7 (amended): a pipeline that completes — with or without a non-empty
degraded list — returns HTTP 200 with `success = true`; the Onboarding and
Policy Ingestion pipelines set a message noting the degradation exactly
when the degraded list is non-empty, while the Query, Eligibility,
Simulation and Voice pipelines keep the default message "OK".
Critical-step failures that abort via HTTPException — onboarding
registration, the eligibility check, the simulation call, the ingestion
fetch — yield a non-2xx status mirroring the downstream failure (its
status, or the 500/502 default when it carries status 0); the Query
pipeline's critical generation failure is the exception: it returns
HTTP 200 with `success = false`. -/
theorem C7_amended_degraded_200_and_critical_statuses :
    (∀ (rid : String) (o : OnboardOutcomes) (d : Obj), o.register = Except.ok d →
      ((orchOnboard rid o).1.toOption.map (fun r => (r.success, r.message))) =
        some (true,
          if (onboardDegraded o).isEmpty then "Onboarding complete"
          else "Onboarding complete with some services degraded")) ∧
    (∀ (rid : String) (o : OnboardOutcomes) (e : EngineCallError),
      o.register = Except.error e → e.status = 0 ∨ 400 ≤ e.status →
      (orchOnboard rid o).1 =
        Except.error ⟨orElseNat e.status 500, "Registration failed: " ++ e.detail⟩ ∧
      400 ≤ orElseNat e.status 500) ∧
    (∀ (rid : String) (o : QueryOutcomes) (d : Obj),
      VecWF o.vector → queryGen o = Except.ok d →
      ((orchQuery rid o).1.toOption.map (fun r => (r.success, r.message))) =
        some (true, "OK")) ∧
    (∀ (rid : String) (o : QueryOutcomes) (e : EngineCallError),
      VecWF o.vector → queryGen o = Except.error e →
      ((orchQuery rid o).1.toOption.map (fun r => r.success)) = some false) ∧
    (∀ (rid : String) (explain : Bool) (o : EligOutcomes) (e : EngineCallError),
      o.elig = Except.error e → e.status = 0 ∨ 400 ≤ e.status →
      (orchEligibility rid explain o).1 =
        Except.error ⟨orElseNat e.status 500,
          "Eligibility engine unavailable: " ++ e.detail⟩ ∧
      400 ≤ orElseNat e.status 500) ∧
    (∀ (rid : String) (explain : Bool) (o : SimOutcomes) (e : EngineCallError),
      o.sim = Except.error e → e.status = 0 ∨ 400 ≤ e.status →
      (orchSimulate rid explain o).1 =
        Except.error ⟨orElseNat e.status 500,
          "Simulation engine unavailable: " ++ e.detail⟩ ∧
      400 ≤ orElseNat e.status 500) ∧
    (∀ (rid su fid : String) (o : IngestOutcomes) (e : EngineCallError),
      o.fetch = Except.error e → e.status = 0 ∨ 400 ≤ e.status →
      (orchIngest rid su fid o).1 =
        Except.error ⟨orElseNat e.status 502, "Policy fetch failed: " ++ e.detail⟩ ∧
      400 ≤ orElseNat e.status 502) ∧
    (∀ (rid su fid : String) (o : IngestOutcomes) (fd : Obj),
      o.fetch = Except.ok fd →
      (jor (getD fd "text" JVal.null) (getD fd "content" (JVal.str ""))).truthy = true →
      (ingestChunks o).truthy = true →
      ((orchIngest rid su fid o).1.toOption.map (fun r => (r.success, r.message))) =
        some (true,
          if (ingestDegraded o).isEmpty then "Policy ingestion complete"
          else "Policy ingestion complete with some steps degraded")) ∧
    (∀ (rid : String) (explain : Bool) (o : EligOutcomes) (d : Obj),
      o.elig = Except.ok d →
      ((orchEligibility rid explain o).1.toOption.map (fun r => (r.success, r.message))) =
        some (true, "OK")) ∧
    (∀ (rid : String) (explain : Bool) (o : SimOutcomes) (d : Obj),
      o.sim = Except.ok d →
      ((orchSimulate rid explain o).1.toOption.map (fun r => (r.success, r.message))) =
        some (true, "OK")) ∧
    (∀ (rid text lang : String) (o : VoiceOutcomes),
      ((orchVoice rid text lang o).1.toOption.map (fun r => (r.success, r.message))) =
        some (true, "OK")) := by
  have hbound : ∀ (s dflt : Nat), 400 ≤ dflt → s = 0 ∨ 400 ≤ s →
      400 ≤ orElseNat s dflt := by
    intro s dflt hd hs
    rcases hs with h0 | h4
    · simp [orElseNat, h0, hd]
    · have : s ≠ 0 := by omega
      simp [orElseNat, this, h4]
  refine ⟨?_, ?_, ?_, ?_, ?_, ?_, ?_, ?_, ?_, ?_, ?_⟩
  · intro rid o d hreg
    simp only [orchOnboard, hreg]
    simp
    exact ⟨_, rfl, rfl, rfl⟩
  · intro rid o e hreg hs
    exact ⟨by simp [orchOnboard, hreg], hbound e.status 500 (by norm_num) hs⟩
  · intro rid o d _hwf hg
    simp only [orchQuery, hg]
    simp
    exact ⟨_, rfl, rfl, rfl⟩
  · intro rid o e _hwf hg
    simp only [orchQuery, hg]
    simp
    exact ⟨_, rfl, rfl⟩
  · intro rid explain o e he hs
    exact ⟨by simp [orchEligibility, he], hbound e.status 500 (by norm_num) hs⟩
  · intro rid explain o e he hs
    exact ⟨by simp [orchSimulate, he], hbound e.status 500 (by norm_num) hs⟩
  · intro rid su fid o e he hs
    exact ⟨by simp [orchIngest, he], hbound e.status 502 (by norm_num) hs⟩
  · intro rid su fid o fd hf htext hch
    simp only [orchIngest, hf]
    simp [htext, hch]
    exact ⟨_, rfl, rfl, rfl⟩
  · intro rid explain o d he
    simp only [orchEligibility, he]
    simp
    exact ⟨_, rfl, rfl, rfl⟩
  · intro rid explain o d hsim
    simp only [orchSimulate, hsim]
    simp
    exact ⟨_, rfl, rfl, rfl⟩
  · intro rid text lang o
    simp only [orchVoice]
    simp
    exact ⟨_, rfl, rfl, rfl⟩

/-- Concrete onboarding outcomes where every step succeeds. -/
def allOkOnboard : OnboardOutcomes :=
  ⟨Except.ok [("user_id", JVal.str "u1"), ("access_token", JVal.str "tok")],
   Except.ok [("identity_token", JVal.str "idtok")],
   Except.ok [("normalized", JVal.obj [])],
   Except.ok [],
   Except.ok [("eligible", JVal.num 2)],
   Except.ok [("total_deadlines", JVal.num 1)],
   Except.ok [("completeness", JVal.num 80)]⟩

/-- The HTTP status of a raised HTTPException, when one was raised. -/
def errStatus : Except HttpError ApiResp → Option Nat
  | Except.error h => some h.status
  | Except.ok _ => none

/-- Concrete eligibility outcomes where both steps succeed. -/
def allOkElig : EligOutcomes :=
  ⟨Except.ok [("eligible", JVal.num 1)], Except.ok [("summary", JVal.str "because")]⟩

/-- Concrete simulation outcomes where both steps succeed. -/
def allOkSim : SimOutcomes :=
  ⟨Except.ok [("delta", JVal.obj [])], Except.ok [("summary", JVal.str "because")]⟩

/-- Concrete voice outcomes: intent classification and text-to-speech fail,
the default chat branch succeeds, so the run completes degraded. -/
def degradedVoiceOutcomes : VoiceOutcomes :=
  ⟨Except.error ⟨"neural_network", 503, "intent down"⟩,
   Except.ok [], Except.ok [], Except.ok [], Except.ok [], Except.ok [],
   Except.ok [("response", JVal.str "hello")],
   Except.ok [],
   Except.error ⟨"speech_interface", 503, "tts down"⟩⟩

/-- Witness for C7 (amended): a fully successful onboarding returns 200 with
the non-degraded message; a 409 registration failure surfaces as HTTP 409;
a query whose generation fails still returns a 200 with success false; an
ingestion run with a failing embedding call returns 200 with the
degradation-noting message; eligibility, simulation and a degraded voice
run each return 200 with success true and the default message "OK". -/
theorem C7_amended_witness :
    ((orchOnboard "w-1" allOkOnboard).1.toOption.map
      (fun r => (r.success, r.message))) = some (true, "Onboarding complete") ∧
    (errStatus (orchOnboard "w-2" regFailOutcomes).1 = some 409 ∧ 400 ≤ 409) ∧
    ((orchQuery "w-3" genFailOutcomes).1.toOption.map (fun r => r.success)) =
      some false ∧
    ((orchIngest "w-4" "http://src" "fresh" ingestEmbedFailOutcomes).1.toOption.map
      (fun r => (r.success, r.message))) =
      some (true, "Policy ingestion complete with some steps degraded") ∧
    ((orchEligibility "w-5" true allOkElig).1.toOption.map
      (fun r => (r.success, r.message))) = some (true, "OK") ∧
    ((orchSimulate "w-6" true allOkSim).1.toOption.map
      (fun r => (r.success, r.message))) = some (true, "OK") ∧
    ((orchVoice "w-7" "hi" "hindi" degradedVoiceOutcomes).1.toOption.map
      (fun r => (r.success, r.message))) = some (true, "OK") := by
  refine ⟨?_, ?_, ?_, ?_, ?_, ?_, ?_⟩
  · have h := C7_amended_degraded_200_and_critical_statuses.1 "w-1" allOkOnboard
      [("user_id", JVal.str "u1"), ("access_token", JVal.str "tok")] rfl
    rw [h]
    rfl
  · have h := C7_amended_degraded_200_and_critical_statuses.2.1 "w-2" regFailOutcomes
      ⟨"login_register", 409, "phone already registered"⟩ rfl (Or.inr (by norm_num))
    rw [h.1]
    exact ⟨rfl, by norm_num⟩
  · have h := C7_amended_degraded_200_and_critical_statuses.2.2.2.1 "w-3"
      genFailOutcomes ⟨"neural_network", 503, "rag down"⟩
      (by simp [VecWF, genFailOutcomes, getD, lookupField, objArray]) rfl
    exact h
  · have h := C7_amended_degraded_200_and_critical_statuses.2.2.2.2.2.2.2.1
      "w-4" "http://src" "fresh" ingestEmbedFailOutcomes
      [("text", JVal.str "body")] rfl rfl rfl
    rw [h]
    rfl
  · have h := C7_amended_degraded_200_and_critical_statuses.2.2.2.2.2.2.2.2.1
      "w-5" true allOkElig [("eligible", JVal.num 1)] rfl
    exact h
  · have h := C7_amended_degraded_200_and_critical_statuses.2.2.2.2.2.2.2.2.2.1
      "w-6" true allOkSim [("delta", JVal.obj [])] rfl
    exact h
  · exact C7_amended_degraded_200_and_critical_statuses.2.2.2.2.2.2.2.2.2.2
      "w-7" "hi" "hindi" degradedVoiceOutcomes

/-! ## Claim C8 -/

/-- All calls of a trace carry the given correlation id. -/
def tracePropagates (rid : String) (tr : List CallRec) : Bool :=
  tr.all (fun c => c.requestId == rid)

/-- Response headers set by `add_trace_id` (main.py lines 97-99): the
resolved trace id is echoed on both `X-Trace-ID` and `X-Request-ID`. -/
def traceResponseHeaders (traceId : String) : List (String × String) :=
  [("X-Trace-ID", traceId), ("X-Request-ID", traceId)]

theorem queryGenCall_requestId (rid : String) (o : QueryOutcomes) :
    (queryGenCall rid o).requestId = rid := by
  unfold queryGenCall
  split <;> rfl

theorem orchQuery_trace_propagates (rid : String) (o : QueryOutcomes) :
    tracePropagates rid (orchQuery rid o).2 = true := by
  rcases hg : queryGen o with e | d <;>
    simp [orchQuery, hg, tracePropagates, auditCalls, queryGenCall_requestId]

theorem orchOnboard_trace_propagates (rid : String) (o : OnboardOutcomes) :
    tracePropagates rid (orchOnboard rid o).2 = true := by
  rcases hr : o.register with e | d <;>
    simp [orchOnboard, hr, tracePropagates, auditCalls]

theorem orchEligibility_trace_propagates (rid : String) (explain : Bool)
    (o : EligOutcomes) :
    tracePropagates rid (orchEligibility rid explain o).2 = true := by
  rcases he : o.elig with e | d <;> cases explain <;>
    simp [orchEligibility, he, tracePropagates, auditCalls]

theorem orchSimulate_trace_propagates (rid : String) (explain : Bool)
    (o : SimOutcomes) :
    tracePropagates rid (orchSimulate rid explain o).2 = true := by
  rcases hsim : o.sim with e | d <;> cases explain <;>
    simp [orchSimulate, hsim, tracePropagates, auditCalls]

theorem orchIngest_trace_propagates (rid su fid : String) (o : IngestOutcomes) :
    tracePropagates rid (orchIngest rid su fid o).2 = true := by
  rcases hf : o.fetch with e | fd
  · simp [orchIngest, hf, tracePropagates]
  · by_cases ht : (jor (getD fd "text" JVal.null)
      (getD fd "content" (JVal.str ""))).truthy
    · by_cases hch : (ingestChunks o).truthy
      · by_cases hu : ingestUpsertTaken o <;>
          simp [orchIngest, hf, ht, hch, hu, tracePropagates, auditCalls]
      · simp [orchIngest, hf, ht, hch, tracePropagates]
    · simp [orchIngest, hf, ht, tracePropagates]

theorem voiceRoute_trace_propagates (rid : String) (o : VoiceOutcomes) :
    tracePropagates rid (voiceRoute rid o).2.2 = true := by
  by_cases h1 : voiceIntent o = "eligibility" ∨ voiceIntent o = "eligibility_check"
  · rcases he : o.elig with _ | _ <;> simp [voiceRoute, h1, he, tracePropagates]
  · by_cases h2 : voiceIntent o = "scheme_query" ∨ voiceIntent o = "scheme_info" ∨
      voiceIntent o = "policy"
    · rcases hv : o.vector with _ | d
      · simp [voiceRoute, h1, h2, hv, tracePropagates]
      · cases hp : (contentPassages (getD d "results" (JVal.arr []))).isEmpty
        · rcases hr : o.ragGen with _ | _ <;>
            simp [voiceRoute, h1, h2, hv, hp, hr, tracePropagates]
        · rcases hc : o.chatGen with _ | _ <;>
            simp [voiceRoute, h1, h2, hv, hp, hc, tracePropagates]
    · by_cases h3 : voiceIntent o = "deadline"
      · rcases hd : o.deadline with _ | _ <;>
          simp [voiceRoute, h1, h2, h3, hd, tracePropagates]
      · rcases hc : o.chat with _ | _ <;>
          simp [voiceRoute, h1, h2, h3, hc, tracePropagates]

theorem orchVoice_trace_propagates (rid text lang : String) (o : VoiceOutcomes) :
    tracePropagates rid (orchVoice rid text lang o).2 = true := by
  have hr := voiceRoute_trace_propagates rid o
  simp only [tracePropagates] at hr ⊢
  rcases ht : o.translate with e | d <;>
    simp [orchVoice, ht, auditCalls, hr] <;> split <;> simp [hr]

/-- C8: a non-empty inbound `X-Trace-ID` value is resolved by the
`add_trace_id` middleware to exactly that value, echoed unchanged on the
response's `X-Trace-ID` header; the orchestrator passes it as the
`request_id` of every downstream call made while serving the request
(including the fire-and-forget audit writes) in all six pipelines, and
`call_engine` attaches it as the `X-Request-ID` correlation header of the
outgoing request. -/
theorem C8_trace_id_propagation
    (v : String) (xreq : Option String) (fresh : String) (hv : v ≠ "") :
    resolveTraceId (some v) xreq fresh = v ∧
    List.lookup "X-Trace-ID" (traceResponseHeaders (resolveTraceId (some v) xreq fresh)) =
      some v ∧
    List.lookup "X-Request-ID" (callEngineHeaders v) = some v ∧
    (∀ o : QueryOutcomes, tracePropagates v (orchQuery v o).2 = true) ∧
    (∀ o : OnboardOutcomes, tracePropagates v (orchOnboard v o).2 = true) ∧
    (∀ (explain : Bool) (o : EligOutcomes),
      tracePropagates v (orchEligibility v explain o).2 = true) ∧
    (∀ (su fid : String) (o : IngestOutcomes),
      tracePropagates v (orchIngest v su fid o).2 = true) ∧
    (∀ (text lang : String) (o : VoiceOutcomes),
      tracePropagates v (orchVoice v text lang o).2 = true) ∧
    (∀ (explain : Bool) (o : SimOutcomes),
      tracePropagates v (orchSimulate v explain o).2 = true) := by
  have hres : resolveTraceId (some v) xreq fresh = v := by
    simp [resolveTraceId, strOr, hv]
  refine ⟨hres, ?_, ?_, ?_, ?_, ?_, ?_, ?_, ?_⟩
  · rw [hres]
    simp [traceResponseHeaders, List.lookup]
  · simp [callEngineHeaders, List.lookup]
  · exact orchQuery_trace_propagates v
  · exact orchOnboard_trace_propagates v
  · exact orchEligibility_trace_propagates v
  · exact orchIngest_trace_propagates v
  · exact fun text lang o => orchVoice_trace_propagates v text lang o
  · exact orchSimulate_trace_propagates v

/-- Witness for C8: the inbound trace id "trace-1" (with a legacy
`X-Request-ID` also present) is resolved and echoed as "trace-1", attached
to the outgoing correlation header, and carried by every downstream call of
a concrete onboarding run and a concrete query run. -/
theorem C8_trace_id_propagation_witness :
    resolveTraceId (some "trace-1") (some "legacy-2") "fresh-3" = "trace-1" ∧
    List.lookup "X-Request-ID" (callEngineHeaders "trace-1") = some "trace-1" ∧
    tracePropagates "trace-1" (orchOnboard "trace-1" allOkOnboard).2 = true ∧
    tracePropagates "trace-1" (orchQuery "trace-1" genFailOutcomes).2 = true := by
  have h := C8_trace_id_propagation "trace-1" (some "legacy-2") "fresh-3" (by simp)
  exact ⟨h.1, h.2.2.1, h.2.2.2.2.1 allOkOnboard, h.2.2.2.1 genFailOutcomes⟩

end AIforBharat
